import Mathlib

/-!
Verification of the rust-nmea NMEA 0183 parser (src/parse.rs, src/lib.rs,
src/time.rs) against its specification.

Shallow embedding conventions:
* byte slices are `List Nat` of ASCII codes;
* the nom 4 streaming combinators used by the source (`char!`, `take!`,
  `take_until!`, `digit`, `one_of!`, `opt!`, `complete!`, `map_res!`,
  `alt!`, `alt_complete!`, `tag!`, `eof!`, `take_while!`, `many0!`) are
  modelled one by one as parsers `List Nat → Except NomErr (α × List Nat)`
  with nom's streaming `Incomplete`/`Error` distinction;
* Rust `f32`/`f64` field values are modelled as `Rat` (the decimal number
  grammar; the exotic `inf`/`nan`/exponent forms accepted by Rust's float
  parser are not representable in any NMEA field and are not modelled);
* fallible Rust functions return `Except`, and the one operation that can
  panic (`Vec::swap_remove` with an out-of-range index, reached from
  `merge_gsv_data`) is modelled with an explicit `panic` outcome.
-/

namespace NmeaSrc

/-- ASCII bytes of a string literal, for concrete inputs. -/
def bytesOf (s : String) : List Nat := s.toList.map Char.toNat

/-- Equality of `Except` values is decidable componentwise. -/
instance {ε α : Type} [DecidableEq ε] [DecidableEq α] : DecidableEq (Except ε α) := fun a b =>
  match a, b with
  | .ok x, .ok y => if h : x = y then .isTrue (by rw [h]) else .isFalse (by simp [h])
  | .error x, .error y => if h : x = y then .isTrue (by rw [h]) else .isFalse (by simp [h])
  | .ok _, .error _ => .isFalse (by simp)
  | .error _, .ok _ => .isFalse (by simp)

/-!
Value-level rational arithmetic.  The parsed `f32`/`f64` field values are
modelled as `Rat`; the three operations the grammars need are written via
`Rat.divInt` (Batteries marks `Rat.add`/`Rat.mul`/`Rat.inv` irreducible,
which would keep concrete runs from reducing inside `decide`).
-/

/-- `a / b` on rationals. -/
def rat_div (a b : Rat) : Rat := Rat.divInt (a.num * (b.den : Int)) ((a.den : Int) * b.num)

/-- `a + b` on rationals. -/
def rat_add (a b : Rat) : Rat :=
  Rat.divInt (a.num * (b.den : Int) + b.num * (a.den : Int)) ((a.den : Int) * (b.den : Int))

/-- `-a` on rationals. -/
def rat_neg (a : Rat) : Rat := Rat.divInt (-a.num) (a.den : Int)

/-- `ParseError` from src/parse.rs. -/
inductive ParseError where
  | TooLongMessage
  | Incomplete
  | Nom
  | UnknownGnss
  | InvalidMessageId
  | ChecksumFail
  | NumberFail
  | InvalidTime
  | InvalidDate
  | InvalidFixStatus
deriving DecidableEq, Repr

/-- The two kinds of nom 4 parser outcomes short of success:
`incomplete` (`Err::Incomplete`) and `fail` (`Err::Error`/`Err::Failure`). -/
inductive NomErr where
  | incomplete
  | fail
deriving DecidableEq, Repr

/-- A nom parser over byte slices: on success returns the value and the
remaining input (nom 4 returns `(rest, value)`). -/
def Parser (α : Type) : Type := List Nat → Except NomErr (α × List Nat)

def ppure {α : Type} (a : α) : Parser α := fun input => .ok (a, input)

def pbind {α β : Type} (p : Parser α) (f : α → Parser β) : Parser β := fun input =>
  match p input with
  | .error e => .error e
  | .ok (a, rest) => f a rest

/-- `char!(c)` (streaming): `Incomplete` on empty input. -/
def pchar (c : Nat) : Parser Unit := fun input =>
  match input with
  | [] => .error .incomplete
  | x :: rest => if x = c then .ok ((), rest) else .error .fail

/-- `take!(n)` (streaming). -/
def ptake (n : Nat) : Parser (List Nat) := fun input =>
  if n ≤ input.length then .ok (input.take n, input.drop n) else .error .incomplete

/-- `take_until!` for a single-byte pattern (the source only uses `"*"` and
`","`): bytes strictly before the first occurrence; `Incomplete` when the
pattern does not occur. -/
def ptake_until (delim : Nat) : Parser (List Nat) := fun input =>
  if delim ∈ input then .ok (input.takeWhile (· ≠ delim), input.dropWhile (· ≠ delim))
  else .error .incomplete

def is_digit_byte (b : Nat) : Bool := decide (48 ≤ b) && decide (b ≤ 57)

/-- nom's `digit` (streaming): one or more ASCII digits; `Incomplete` when
the input is empty or consists only of digits (more digits could follow);
`Error` when the first byte is not a digit. -/
def pdigit : Parser (List Nat) := fun input =>
  match input.findIdx? (fun b => !is_digit_byte b) with
  | none => .error .incomplete
  | some 0 => .error .fail
  | some _ => .ok (input.takeWhile is_digit_byte, input.dropWhile is_digit_byte)

/-- `one_of!(cs)` (streaming): returns the matched byte. -/
def pone_of (cs : List Nat) : Parser Nat := fun input =>
  match input with
  | [] => .error .incomplete
  | x :: rest => if x ∈ cs then .ok (x, rest) else .error .fail

/-- `opt!(p)`: `Error` becomes `none` without consuming; `Incomplete`
propagates (nom 4 streaming behaviour). -/
def popt {α : Type} (p : Parser α) : Parser (Option α) := fun input =>
  match p input with
  | .ok (a, rest) => .ok (some a, rest)
  | .error .incomplete => .error .incomplete
  | .error .fail => .ok (none, input)

/-- `complete!(p)`: turns `Incomplete` into `Error`. -/
def pcomplete {α : Type} (p : Parser α) : Parser α := fun input =>
  match p input with
  | .error .incomplete => .error .fail
  | r => r

/-- `map_res!(p, f)`: a failing `f` becomes a plain nom `Error`
(the `ParseError` payload is discarded by nom 4's `map_res!`). -/
def pmapRes {α β : Type} (p : Parser α) (f : α → Except ParseError β) : Parser β := fun input =>
  match p input with
  | .error e => .error e
  | .ok (a, rest) =>
    match f a with
    | .ok b => .ok (b, rest)
    | .error _ => .error .fail

/-- `eof!()`: succeeds exactly on empty input (value: the empty slice). -/
def peof : Parser (List Nat) := fun input =>
  if input.isEmpty then .ok ([], input) else .error .fail

/-- `tag!(t)` (streaming): `Incomplete` when the input is a proper prefix of
the tag. -/
def ptag (t : List Nat) : Parser (List Nat) := fun input =>
  if t.isPrefixOf input then .ok (t, input.drop t.length)
  else if input.isPrefixOf t then .error .incomplete
  else .error .fail

/-- `alt!(p | q)`: try `q` only when `p` fails with `Error`;
`Incomplete` propagates. -/
def palt {α : Type} (p q : Parser α) : Parser α := fun input =>
  match p input with
  | .error .fail => q input
  | r => r

/-- `alt_complete!(p | q)`: each branch behaves as if wrapped in
`complete!`, so an `Incomplete` branch is skipped like an error. -/
def palt_complete {α : Type} (p q : Parser α) : Parser α := fun input =>
  match pcomplete p input with
  | .error _ => pcomplete q input
  | r => r

/-- `take_while!(f)` (streaming): `Incomplete` when every byte matches
(more matching bytes could follow). -/
def ptake_while (f : Nat → Bool) : Parser (List Nat) := fun input =>
  match input.findIdx? (fun b => !f b) with
  | none => .error .incomplete
  | some _ => .ok (input.takeWhile f, input.dropWhile f)

/-- `many0!(p)`, fuelled by the input length (each iteration must consume;
nom 4 errors out a non-consuming success and propagates `Incomplete`). -/
def pmany0_go {α : Type} (p : Parser α) : Nat → List Nat → List α →
    Except NomErr (List α × List Nat)
  | 0, input, acc => .ok (acc.reverse, input)
  | fuel + 1, input, acc =>
    match p input with
    | .error .incomplete => .error .incomplete
    | .error .fail => .ok (acc.reverse, input)
    | .ok (a, rest) =>
      if rest.length < input.length then pmany0_go p fuel rest (a :: acc)
      else .error .fail

def pmany0 {α : Type} (p : Parser α) : Parser (List α) := fun input =>
  pmany0_go p (input.length + 1) input []

/-! ### Numeric field parsing (`parse_num`, `parse_hex`, `parse_float_num`) -/

def digits_val (ds : List Nat) : Nat := ds.foldl (fun acc b => 10 * acc + (b - 48)) 0

/-- Rust `str::parse::<uN>` on a byte slice: optional sign (a `-` sign only
admits the value zero), then one or more ASCII digits, rejected on overflow
(`bound` is `2^N`). -/
def parse_unsigned (bound : Nat) (bs : List Nat) : Except ParseError Nat :=
  match bs with
  | [] => .error .NumberFail
  | b :: rest =>
    let neg := b = 45
    let ds := if b = 43 || b = 45 then rest else bs
    if ds ≠ [] ∧ ds.all is_digit_byte then
      let v := digits_val ds
      if neg then (if v = 0 then .ok 0 else .error .NumberFail)
      else if v < bound then .ok v else .error .NumberFail
    else .error .NumberFail

/-- Rust `str::parse::<iN>` on a byte slice (`bound` is `2^(N-1)`). -/
def parse_signed (bound : Nat) (bs : List Nat) : Except ParseError Int :=
  match bs with
  | [] => .error .NumberFail
  | b :: rest =>
    let neg := b = 45
    let ds := if b = 43 || b = 45 then rest else bs
    if ds ≠ [] ∧ ds.all is_digit_byte then
      let v := digits_val ds
      if neg then (if v ≤ bound then .ok (-(v : Int)) else .error .NumberFail)
      else if v < bound then .ok (v : Int) else .error .NumberFail
    else .error .NumberFail

def hex_val (b : Nat) : Nat :=
  if 48 ≤ b ∧ b ≤ 57 then b - 48
  else if 97 ≤ b ∧ b ≤ 102 then b - 87
  else b - 55

def is_hex_digit_byte (b : Nat) : Bool :=
  (decide (48 ≤ b) && decide (b ≤ 57)) ||
  (decide (97 ≤ b) && decide (b ≤ 102)) ||
  (decide (65 ≤ b) && decide (b ≤ 70))

def hex_digits_val (ds : List Nat) : Nat := ds.foldl (fun acc b => 16 * acc + hex_val b) 0

/-- `u8::from_str_radix(s, 16)` as used by `parse_hex` in src/parse.rs:
hex digits of either case, optional sign, overflow rejected. -/
def parse_hex (bs : List Nat) : Except ParseError Nat :=
  match bs with
  | [] => .error .NumberFail
  | b :: rest =>
    let neg := b = 45
    let ds := if b = 43 || b = 45 then rest else bs
    if ds ≠ [] ∧ ds.all is_hex_digit_byte then
      let v := hex_digits_val ds
      if neg then (if v = 0 then .ok 0 else .error .NumberFail)
      else if v < 256 then .ok v else .error .NumberFail
    else .error .NumberFail

/-- Value of `intPart.fracPart` as a rational. -/
def dec_value (intPart fracPart : List Nat) : Rat :=
  Rat.divInt
    ((digits_val intPart * 10 ^ fracPart.length + digits_val fracPart : Nat) : Int)
    ((10 ^ fracPart.length : Nat) : Int)

/-- Rust `str::parse::<f32/f64>` restricted to the plain decimal forms
(`parse_float_num` in src/parse.rs; the `inf`/`nan`/exponent forms of the
Rust float grammar never occur in NMEA fields and are not modelled). -/
def parse_float_num (bs : List Nat) : Except ParseError Rat :=
  match bs with
  | [] => .error .NumberFail
  | b :: rest =>
    let neg := b = 45
    let body := if b = 43 || b = 45 then rest else bs
    let ip := body.takeWhile is_digit_byte
    let rest2 := body.drop ip.length
    match rest2 with
    | [] =>
      if ip = [] then .error .NumberFail
      else .ok (if neg then rat_neg (dec_value ip []) else dec_value ip [])
    | 46 :: fr =>
      if fr.all is_digit_byte ∧ (ip ≠ [] ∨ fr ≠ []) then
        .ok (if neg then rat_neg (dec_value ip fr) else dec_value ip fr)
      else .error .NumberFail
    | _ => .error .NumberFail

/-! ### Sentence framing (src/parse.rs) -/

/-- `NmeaSentence` from src/parse.rs. -/
structure NmeaSentence where
  talker_id : List Nat
  message_id : List Nat
  data : List Nat
  checksum : Nat
deriving DecidableEq, Repr

/-- `checksum`: XOR-fold of the bytes. -/
def checksum (bytes : List Nat) : Nat := bytes.foldl (fun c x => Nat.xor c x) 0

/-- `NmeaSentence::calc_checksum`: XOR over talker id, message id, the comma
after the message id, and the payload. -/
def calc_checksum (s : NmeaSentence) : Nat :=
  checksum (s.talker_id ++ s.message_id ++ 44 :: s.data)

/-- `parse_checksum`: `*` then two bytes through `parse_hex`. -/
def parse_checksum : Parser Nat :=
  pmapRes (pbind (pchar 42) fun _ => pbind (ptake 2) fun cs => ppure cs) parse_hex

/-- `do_parse_nmea_sentence`: `$`, 2-byte talker id, 3-byte message id,
`,`, payload up to `*`, checksum. -/
def do_parse_nmea_sentence : Parser NmeaSentence :=
  pbind (pchar 36) fun _ =>
  pbind (ptake 2) fun talker_id =>
  pbind (ptake 3) fun message_id =>
  pbind (pchar 44) fun _ =>
  pbind (ptake_until 42) fun data =>
  pbind parse_checksum fun cs =>
  ppure { talker_id := talker_id, message_id := message_id, data := data, checksum := cs }

/-- Lift a nom outcome to `ParseError` the way the `parse_*` wrappers do:
`Incomplete` ↦ `Incomplete`, anything else ↦ `Nom`. -/
def nom_err (e : NomErr) : ParseError :=
  match e with
  | .incomplete => .Incomplete
  | .fail => .Nom

/-- `parse_nmea_sentence`: length guard (102 bytes) then framing. -/
def parse_nmea_sentence (sentence : List Nat) : Except ParseError NmeaSentence :=
  if sentence.length > 102 then .error .TooLongMessage
  else
    match do_parse_nmea_sentence sentence with
    | .error e => .error (nom_err e)
    | .ok (s, _) => .ok s

/-! ### Time and date values (src/time.rs), shared field grammars -/

/-- `NaiveTime` (the `f64` seconds field is modelled as `Rat`). -/
structure NaiveTime where
  hour : Nat
  min : Nat
  sec : Rat
deriving DecidableEq, Repr

/-- `NaiveDate`. -/
structure NaiveDate where
  year : Int
  month : Nat
  day : Nat
deriving DecidableEq, Repr

/-- `parse_hms`: `HH` `MM` then seconds up to the next comma; rejects
negative seconds, hour ≥ 24, minute ≥ 60 with `InvalidTime`. -/
def parse_hms : Parser NaiveTime :=
  pmapRes
    (pbind (pmapRes (ptake 2) (parse_unsigned (2 ^ 32))) fun hour =>
     pbind (pmapRes (ptake 2) (parse_unsigned (2 ^ 32))) fun min =>
     pbind (pmapRes (ptake_until 44) parse_float_num) fun sec =>
     ppure (hour, min, sec))
    (fun d =>
      if d.2.2 < 0 ∨ 24 ≤ d.1 ∨ 60 ≤ d.2.1 then .error .InvalidTime
      else .ok { hour := d.1, min := d.2.1, sec := d.2.2 })

/-- The scanning state of the hand-written `float_number` parser. -/
inductive FnState where
  | before
  | point
  | after
deriving DecidableEq, Repr

/-- The scan loop of `float_number` from src/parse.rs; returns how many
bytes belong to the number. -/
def float_number_go : List Nat → Nat → FnState → Except NomErr Nat
  | [], idx, _ => .ok idx
  | b :: rest, idx, .before =>
    if b = 46 then float_number_go rest (idx + 1) .point
    else if is_digit_byte b then float_number_go rest (idx + 1) .before
    else if idx = 0 then .error .fail
    else .ok idx
  | b :: rest, idx, .point =>
    if is_digit_byte b then float_number_go rest (idx + 1) .after else .error .fail
  | b :: rest, idx, .after =>
    if is_digit_byte b then float_number_go rest (idx + 1) .after else .ok idx

/-- `float_number` from src/parse.rs: digits with at most one decimal
point; `Incomplete` on empty input; consumes to the end when the whole
input is such a number. -/
def float_number : Parser (List Nat) := fun input =>
  if input.length = 0 then .error .incomplete
  else
    match float_number_go input 0 .before with
    | .error e => .error e
    | .ok n => .ok (input.take n, input.drop n)

/-- `do_parse_lat_lon`: `DDMM.mmm,(N|S),DDDMM.mmm,(E|W)` converted to
signed decimal degrees. -/
def do_parse_lat_lon : Parser (Rat × Rat) :=
  pmapRes
    (pbind (pmapRes (ptake 2) (parse_unsigned (2 ^ 8))) fun lat_deg =>
     pbind (pmapRes float_number parse_float_num) fun lat_min =>
     pbind (pchar 44) fun _ =>
     pbind (pone_of [78, 83]) fun lat_dir =>
     pbind (pchar 44) fun _ =>
     pbind (pmapRes (ptake 3) (parse_unsigned (2 ^ 8))) fun lon_deg =>
     pbind (pmapRes float_number parse_float_num) fun lon_min =>
     pbind (pchar 44) fun _ =>
     pbind (pone_of [69, 87]) fun lon_dir =>
     ppure (lat_deg, lat_min, lat_dir, lon_deg, lon_min, lon_dir))
    (fun d =>
      let lat0 : Rat := rat_add (d.1 : Rat) (rat_div d.2.1 60)
      let lat := if d.2.2.1 = 83 then rat_neg lat0 else lat0
      let lon0 : Rat := rat_add (d.2.2.2.1 : Rat) (rat_div d.2.2.2.2.1 60)
      let lon := if d.2.2.2.2.2 = 87 then rat_neg lon0 else lon0
      .ok (lat, lon))

/-- `parse_lat_lon`: the all-comma placeholder `,,,` is a legal "no fix". -/
def parse_lat_lon : Parser (Option (Rat × Rat)) :=
  palt_complete
    (pmapRes (ptag [44, 44, 44]) (fun _ => .ok none))
    (pmapRes do_parse_lat_lon (fun v => .ok (some v)))

/-! ### Satellites and the per-type records (src/lib.rs, src/parse.rs) -/

/-- `GnssType` from src/lib.rs. -/
inductive GnssType where
  | Galileo
  | Gps
  | Glonass
deriving DecidableEq, Repr

/-- `FixType` from src/lib.rs. -/
inductive FixType where
  | Invalid
  | Gps
  | DGps
  | Pps
  | Rtk
  | FloatRtk
  | Estimated
  | Manual
  | Simulation
deriving DecidableEq, Repr

/-- `From<char> for FixType` (GGA fix-quality digit, default `Invalid`). -/
def FixType.from (b : Nat) : FixType :=
  if b = 48 then .Invalid
  else if b = 49 then .Gps
  else if b = 50 then .DGps
  else if b = 51 then .Pps
  else if b = 52 then .Rtk
  else if b = 53 then .FloatRtk
  else if b = 54 then .Estimated
  else if b = 55 then .Manual
  else if b = 56 then .Simulation
  else .Invalid

/-- `Satellite` from src/lib.rs (`f32` angles as `Rat`). -/
structure Satellite where
  gnss_type : GnssType
  prn : Nat
  elevation : Option Rat
  azimuth : Option Rat
  snr : Option Rat
deriving DecidableEq, Repr

/-- `GsvData` from src/parse.rs (the `[Option<Satellite>; 4]` array as a
four-element list). -/
structure GsvData where
  gnss_type : GnssType
  number_of_sentences : Nat
  sentence_num : Nat
  sats_in_view : Nat
  sats_info : List (Option Satellite)
deriving DecidableEq, Repr

/-- `construct_satellite`: constellation placeholder `Galileo`, integer
angles cast to float. -/
def construct_satellite (d : Nat × Option Int × Option Int × Option Int) :
    Except ParseError Satellite :=
  .ok { gnss_type := .Galileo, prn := d.1,
        elevation := d.2.1.map (fun v => (v : Rat)),
        azimuth := d.2.2.1.map (fun v => (v : Rat)),
        snr := d.2.2.2.map (fun v => (v : Rat)) }

/-- `parse_gsv_sat_info`: `prn,elevation,azimuth,snr` with the last three
optional, terminated by end of input or a comma. -/
def parse_gsv_sat_info : Parser Satellite :=
  pmapRes
    (pbind (pmapRes pdigit (parse_unsigned (2 ^ 32))) fun prn =>
     pbind (pchar 44) fun _ =>
     pbind (popt (pmapRes pdigit (parse_signed (2 ^ 31)))) fun elevation =>
     pbind (pchar 44) fun _ =>
     pbind (popt (pmapRes pdigit (parse_signed (2 ^ 31)))) fun azimuth =>
     pbind (pchar 44) fun _ =>
     pbind (popt (pmapRes (pcomplete pdigit) (parse_signed (2 ^ 31)))) fun signal_noise =>
     pbind (palt peof (ptag [44])) fun _ =>
     ppure (prn, elevation, azimuth, signal_noise))
    construct_satellite

/-- `construct_gsv_data`. -/
def construct_gsv_data
    (d : Nat × Nat × Nat × Option Satellite × Option Satellite × Option Satellite ×
         Option Satellite) : Except ParseError GsvData :=
  .ok { gnss_type := .Galileo, number_of_sentences := d.1, sentence_num := d.2.1,
        sats_in_view := d.2.2.1,
        sats_info := [d.2.2.2.1, d.2.2.2.2.1, d.2.2.2.2.2.1, d.2.2.2.2.2.2] }

/-- `do_parse_gsv`. -/
def do_parse_gsv : Parser GsvData :=
  pmapRes
    (pbind (pmapRes pdigit (parse_unsigned (2 ^ 16))) fun number_of_sentences =>
     pbind (pchar 44) fun _ =>
     pbind (pmapRes pdigit (parse_unsigned (2 ^ 16))) fun sentence_index =>
     pbind (pchar 44) fun _ =>
     pbind (pmapRes pdigit (parse_unsigned (2 ^ 16))) fun total_number_of_sats =>
     pbind (pchar 44) fun _ =>
     pbind (popt (pcomplete parse_gsv_sat_info)) fun sat0 =>
     pbind (popt (pcomplete parse_gsv_sat_info)) fun sat1 =>
     pbind (popt (pcomplete parse_gsv_sat_info)) fun sat2 =>
     pbind (popt (pcomplete parse_gsv_sat_info)) fun sat3 =>
     ppure (number_of_sentences, sentence_index, total_number_of_sats, sat0, sat1, sat2, sat3))
    construct_gsv_data

/-- `parse_gsv`: message id must be `GSV`; talker id `GP` or `GL` selects
the constellation (anything else is `UnknownGnss`), which is stamped onto
the record and all its satellites. -/
def parse_gsv (sentence : NmeaSentence) : Except ParseError GsvData :=
  if sentence.message_id ≠ bytesOf "GSV" then .error .InvalidMessageId
  else
    match
      (if sentence.talker_id = bytesOf "GP" then .ok GnssType.Gps
       else if sentence.talker_id = bytesOf "GL" then .ok GnssType.Glonass
       else .error ParseError.UnknownGnss : Except ParseError GnssType) with
    | .error e => .error e
    | .ok gnss_type =>
      match do_parse_gsv sentence.data with
      | .error e => .error (nom_err e)
      | .ok (res, _) =>
        .ok { res with
              gnss_type := gnss_type,
              sats_info := res.sats_info.map (Option.map fun v => { v with gnss_type := gnss_type }) }

/-- `GgaData` from src/parse.rs. -/
structure GgaData where
  fix_time : Option NaiveTime
  fix_type : Option FixType
  latitude : Option Rat
  longitude : Option Rat
  fix_satellites : Option Nat
  hdop : Option Rat
  altitude : Option Rat
  geoid_height : Option Rat
deriving DecidableEq, Repr

/-- `do_parse_gga`. -/
def do_parse_gga : Parser GgaData :=
  pmapRes
    (pbind (popt (pcomplete parse_hms)) fun time =>
     pbind (pchar 44) fun _ =>
     pbind parse_lat_lon fun lat_lon =>
     pbind (pchar 44) fun _ =>
     pbind (pone_of [48, 49, 50, 51, 52, 53, 54, 55, 56]) fun fix_quality =>
     pbind (pchar 44) fun _ =>
     pbind (popt (pcomplete (pmapRes pdigit (parse_unsigned (2 ^ 32))))) fun tracked_sats =>
     pbind (pchar 44) fun _ =>
     pbind (popt (pcomplete (pmapRes float_number parse_float_num))) fun hdop =>
     pbind (pchar 44) fun _ =>
     pbind (popt (pcomplete (pmapRes (ptake_until 44) parse_float_num))) fun altitude =>
     pbind (pchar 44) fun _ =>
     pbind (popt (pcomplete (pchar 77))) fun _ =>
     pbind (pchar 44) fun _ =>
     pbind (popt (pcomplete (pmapRes (ptake_until 44) parse_float_num))) fun geoid_height =>
     pbind (pchar 44) fun _ =>
     pbind (popt (pcomplete (pchar 77))) fun _ =>
     ppure (time, lat_lon, fix_quality, tracked_sats, hdop, altitude, geoid_height))
    (fun d =>
      .ok { fix_time := d.1, fix_type := some (FixType.from d.2.2.1),
            latitude := d.2.1.map Prod.fst, longitude := d.2.1.map Prod.snd,
            fix_satellites := d.2.2.2.1, hdop := d.2.2.2.2.1,
            altitude := d.2.2.2.2.2.1, geoid_height := d.2.2.2.2.2.2 })

/-- `parse_gga`. -/
def parse_gga (sentence : NmeaSentence) : Except ParseError GgaData :=
  if sentence.message_id ≠ bytesOf "GGA" then .error .InvalidMessageId
  else
    match do_parse_gga sentence.data with
    | .error e => .error (nom_err e)
    | .ok (res, _) => .ok res

/-- `RmcStatusOfFix` from src/parse.rs. -/
inductive RmcStatusOfFix where
  | Autonomous
  | Differential
  | Invalid
deriving DecidableEq, Repr

/-- `RmcData` from src/parse.rs. -/
structure RmcData where
  fix_time : Option NaiveTime
  fix_date : Option NaiveDate
  status_of_fix : Option RmcStatusOfFix
  lat : Option Rat
  lon : Option Rat
  speed_over_ground : Option Rat
  true_course : Option Rat
deriving DecidableEq, Repr

/-- `parse_date`: `DDMMYY` with month in [1,12] and day in [1,31], else
`InvalidDate`. -/
def parse_date : Parser NaiveDate :=
  pmapRes
    (pbind (pmapRes (ptake 2) (parse_unsigned (2 ^ 8))) fun day =>
     pbind (pmapRes (ptake 2) (parse_unsigned (2 ^ 8))) fun month =>
     pbind (pmapRes (ptake 2) (parse_unsigned (2 ^ 8))) fun year =>
     ppure (day, month, year))
    (fun d =>
      if d.2.1 < 1 ∨ d.2.1 > 12 ∨ d.1 < 1 ∨ d.1 > 31 then .error .InvalidDate
      else .ok { year := (d.2.2 : Int), month := d.2.1, day := d.1 })

/-- `construct_rmc`, the `map_res!` closure of `do_parse_rmc` (the status
letter is restricted to `ADV` by `one_of!` before it reaches this closure;
the `InvalidFixStatus` arm is kept as in the source). -/
def construct_rmc
    (d : Option NaiveTime × Nat × Option (Rat × Rat) × Option Rat × Option Rat ×
         Option NaiveDate) : Except ParseError RmcData :=
  match
    (if d.2.1 = 65 then .ok RmcStatusOfFix.Autonomous
     else if d.2.1 = 68 then .ok RmcStatusOfFix.Differential
     else if d.2.1 = 86 then .ok RmcStatusOfFix.Invalid
     else .error ParseError.InvalidFixStatus : Except ParseError RmcStatusOfFix) with
  | .error e => .error e
  | .ok st =>
    .ok { fix_time := d.1, fix_date := d.2.2.2.2.2, status_of_fix := some st,
          lat := d.2.2.1.map Prod.fst, lon := d.2.2.1.map Prod.snd,
          speed_over_ground := d.2.2.2.1, true_course := d.2.2.2.2.1 }

/-- The `do_parse!` body of `do_parse_rmc`, before the `map_res!` closure. -/
def do_parse_rmc_body :
    Parser (Option NaiveTime × Nat × Option (Rat × Rat) × Option Rat × Option Rat ×
            Option NaiveDate) :=
  pbind (popt (pcomplete parse_hms)) fun time =>
  pbind (pchar 44) fun _ =>
  pbind (pone_of [65, 68, 86]) fun status_of_fix =>
  pbind (pchar 44) fun _ =>
  pbind parse_lat_lon fun lat_lon =>
  pbind (pchar 44) fun _ =>
  pbind (popt (pcomplete (pmapRes float_number parse_float_num))) fun speed_over_ground =>
  pbind (pchar 44) fun _ =>
  pbind (popt (pcomplete (pmapRes float_number parse_float_num))) fun true_course =>
  pbind (pchar 44) fun _ =>
  pbind (popt (pcomplete parse_date)) fun date =>
  pbind (pchar 44) fun _ =>
  ppure (time, status_of_fix, lat_lon, speed_over_ground, true_course, date)

/-- `do_parse_rmc`. -/
def do_parse_rmc : Parser RmcData := pmapRes do_parse_rmc_body construct_rmc

/-- `parse_rmc`. -/
def parse_rmc (sentence : NmeaSentence) : Except ParseError RmcData :=
  if sentence.message_id ≠ bytesOf "RMC" then .error .InvalidMessageId
  else
    match do_parse_rmc sentence.data with
    | .error e => .error (nom_err e)
    | .ok (res, _) => .ok res

/-- `GsaMode1` from src/parse.rs. -/
inductive GsaMode1 where
  | Manual
  | Automatic
deriving DecidableEq, Repr

/-- `GsaMode2` from src/parse.rs. -/
inductive GsaMode2 where
  | NoFix
  | Fix2D
  | Fix3D
deriving DecidableEq, Repr

/-- `GsaData` from src/parse.rs. -/
structure GsaData where
  mode1 : GsaMode1
  mode2 : GsaMode2
  fix_sats_prn : List Nat
  pdop : Option Rat
  hdop : Option Rat
  vdop : Option Rat
deriving DecidableEq, Repr

/-- `gsa_prn_fields_parse`: zero or more `PRN?,` fields. -/
def gsa_prn_fields_parse : Parser (List (Option Nat)) :=
  pmany0
    (pmapRes
      (pbind (popt (pmapRes (pcomplete pdigit) (parse_unsigned (2 ^ 32)))) fun prn =>
       pbind (pchar 44) fun _ =>
       ppure prn)
      (fun prn => .ok prn))

/-- `GsaTail`. -/
def GsaTail : Type := List (Option Nat) × Option Rat × Option Rat × Option Rat

/-- `do_parse_gsa_tail`: PRN list then `PDOP,HDOP,VDOP`. -/
def do_parse_gsa_tail : Parser GsaTail :=
  pbind gsa_prn_fields_parse fun prns =>
  pbind (pmapRes float_number parse_float_num) fun pdop =>
  pbind (pchar 44) fun _ =>
  pbind (pmapRes float_number parse_float_num) fun hdop =>
  pbind (pchar 44) fun _ =>
  pbind (pmapRes float_number parse_float_num) fun vdop =>
  ppure ((prns, some pdop, some hdop, some vdop) : GsaTail)

/-- `do_parse_empty_gsa_tail`: a run of commas up to end of input. -/
def do_parse_empty_gsa_tail : Parser GsaTail :=
  pmapRes
    (pbind (ptake_while (fun x => x = 44)) fun _ =>
     pbind peof fun _ =>
     ppure ())
    (fun _ => .ok (([], none, none, none) : GsaTail))

/-- `do_parse_gsa`. -/
def do_parse_gsa : Parser GsaData :=
  pmapRes
    (pbind (pone_of [77, 65]) fun mode1 =>
     pbind (pchar 44) fun _ =>
     pbind (pone_of [49, 50, 51]) fun mode2 =>
     pbind (pchar 44) fun _ =>
     pbind (palt_complete do_parse_empty_gsa_tail do_parse_gsa_tail) fun tail =>
     ppure (mode1, mode2, tail))
    (fun d =>
      .ok { mode1 := if d.1 = 77 then .Manual else .Automatic,
            mode2 := if d.2.1 = 49 then .NoFix else if d.2.1 = 50 then .Fix2D else .Fix3D,
            fix_sats_prn := d.2.2.1.filterMap id,
            pdop := d.2.2.2.1, hdop := d.2.2.2.2.1, vdop := d.2.2.2.2.2 })

/-- `parse_gsa`. -/
def parse_gsa (sentence : NmeaSentence) : Except ParseError GsaData :=
  if sentence.message_id ≠ bytesOf "GSA" then .error .InvalidMessageId
  else
    match do_parse_gsa sentence.data with
    | .error e => .error (nom_err e)
    | .ok (res, _) => .ok res

/-- `VtgData` from src/parse.rs. -/
structure VtgData where
  true_course : Option Rat
  speed_over_ground : Option Rat
deriving DecidableEq, Repr

/-- `do_parse_vtg`: course `,T,` magnetic course `,M,` knots `,N` km/h `,K`;
the knots figure wins, otherwise km/h is divided by 1.852. -/
def do_parse_vtg : Parser VtgData :=
  pmapRes
    (pbind (popt (pmapRes (pcomplete float_number) parse_float_num)) fun true_course =>
     pbind (pchar 44) fun _ =>
     pbind (popt (pcomplete (pchar 84))) fun _ =>
     pbind (pchar 44) fun _ =>
     pbind (popt (pmapRes (pcomplete float_number) parse_float_num)) fun _magn_course =>
     pbind (pchar 44) fun _ =>
     pbind (popt (pcomplete (pchar 77))) fun _ =>
     pbind (pchar 44) fun _ =>
     pbind (popt (pmapRes (pcomplete float_number) parse_float_num)) fun knots_ground_speed =>
     pbind (pchar 44) fun _ =>
     pbind (popt (pcomplete (pchar 78))) fun _ =>
     pbind (popt (pcomplete (pmapRes float_number parse_float_num))) fun kph_ground_speed =>
     pbind (pchar 44) fun _ =>
     pbind (popt (pcomplete (pchar 75))) fun _ =>
     ppure (true_course, knots_ground_speed, kph_ground_speed))
    (fun d =>
      .ok { true_course := d.1,
            speed_over_ground :=
              match d.2.1, d.2.2 with
              | some val, _ => some val
              | none, some val => some (rat_div val (Rat.divInt 1852 1000))
              | none, none => none })

/-- `parse_vtg`. -/
def parse_vtg (sentence : NmeaSentence) : Except ParseError VtgData :=
  if sentence.message_id ≠ bytesOf "VTG" then .error .InvalidMessageId
  else
    match do_parse_vtg sentence.data with
    | .error e => .error (nom_err e)
    | .ok (res, _) => .ok res

/-! ### Top-level stateless `parse` (src/parse.rs) -/

/-- `ParseResult` as required by its callers in src/lib.rs (`Nmea::parse`
and `Nmea::parse_for_fix` both match on a `GSV` variant).  NOTE: the
`ParseResult` enum literally written in src/parse.rs lacks the `GSV`
variant, and the dispatch in `parse` has no `GSV` arm, so `parse` never
produces this constructor — that discrepancy is the subject of the
theorems about GSV dispatch below. -/
inductive ParseResult where
  | GGA (data : GgaData)
  | RMC (data : RmcData)
  | GSA (data : GsaData)
  | VTG (data : VtgData)
  | GSV (data : GsvData)
  | Unsupported (message_id : List Nat)
deriving DecidableEq, Repr

/-- The message-id dispatch of `parse` (run after a successful checksum
comparison).  Exactly as in src/parse.rs: `GGA`, `RMC`, `GSA`, `VTG`, and
a catch-all `Unsupported` — there is no `GSV` arm. -/
def dispatch_sentence (s : NmeaSentence) : Except ParseError ParseResult :=
  if s.message_id = bytesOf "GGA" then (parse_gga s).map ParseResult.GGA
  else if s.message_id = bytesOf "RMC" then (parse_rmc s).map ParseResult.RMC
  else if s.message_id = bytesOf "GSA" then (parse_gsa s).map ParseResult.GSA
  else if s.message_id = bytesOf "VTG" then (parse_vtg s).map ParseResult.VTG
  else .ok (.Unsupported s.message_id)

/-- `parse` from src/parse.rs: frame, compare checksums, dispatch. -/
def parse (xs : List Nat) : Except ParseError ParseResult :=
  match parse_nmea_sentence xs with
  | .error e => .error e
  | .ok nmea_sentence =>
    if nmea_sentence.checksum = calc_checksum nmea_sentence then
      dispatch_sentence nmea_sentence
    else .error .ChecksumFail

/-! ### Session state (src/lib.rs) -/

/-- `SentenceType` from src/lib.rs (generated by `define_sentence_type_enum!`;
the `None` variant is the fallback for unknown ids). -/
inductive SentenceType where
  | None | AAM | ABK | ACA | ACK | ACS | AIR | ALM | ALR | APA | APB | ASD
  | BEC | BOD | BWC | BWR | BWW | CUR | DBK | DBS | DBT | DCN | DPT | DSC
  | DSE | DSI | DSR | DTM | FSI | GBS | GGA | GLC | GLL | GMP | GNS | GRS
  | GSA | GST | GSV | GTD | GXA | HDG | HDM | HDT | HMR | HMS | HSC | HTC
  | HTD | LCD | LRF | LRI | LR1 | LR2 | LR3 | MLA | MSK | MSS | MWD | MTW
  | MWV | OLN | OSD | ROO | RMA | RMB | RMC | ROT | RPM | RSA | RSD | RTE
  | SFI | SSD | STN | TLB | TLL | TRF | TTM | TUT | TXT | VBW | VDM | VDO
  | VDR | VHW | VLW | VPW | VSD | VTG | VWR | WCV | WNC | WPL | XDR | XTE
  | XTR | ZDA | ZDL | ZFO | ZTG
deriving DecidableEq, Repr

/-- `Nmea` from src/lib.rs.  The two `hashmap_core` collections are
modelled with insertion order preserved: `satellites_scan` as an
association list and the two `HashSet<SentenceType>` as duplicate-free
lists. -/
structure Nmea where
  fix_time : Option NaiveTime
  fix_date : Option NaiveDate
  fix_type : Option FixType
  latitude : Option Rat
  longitude : Option Rat
  altitude : Option Rat
  speed_over_ground : Option Rat
  true_course : Option Rat
  num_of_fix_satellites : Option Nat
  hdop : Option Rat
  vdop : Option Rat
  pdop : Option Rat
  geoid_height : Option Rat
  satellites : List Satellite
  fix_satellites_prns : Option (List Nat)
  satellites_scan : List (GnssType × List (List Satellite))
  required_sentences_for_nav : List SentenceType
  last_fix_time : Option NaiveTime
  sentences_for_this_time : List SentenceType
deriving DecidableEq, Repr

/-- `Nmea::default()`. -/
def Nmea.default : Nmea :=
  { fix_time := none, fix_date := none, fix_type := none, latitude := none,
    longitude := none, altitude := none, speed_over_ground := none,
    true_course := none, num_of_fix_satellites := none, hdop := none,
    vdop := none, pdop := none, geoid_height := none, satellites := [],
    fix_satellites_prns := none, satellites_scan := [],
    required_sentences_for_nav := [], last_fix_time := none,
    sentences_for_this_time := [] }

/-- `Nmea::new()`: the scan table holds the three constellations. -/
def Nmea.new : Nmea :=
  { Nmea.default with
    satellites_scan := [(.Galileo, []), (.Gps, []), (.Glonass, [])] }

/-- `Nmea::create_for_navigation`: fails on an empty mandatory set. -/
def Nmea.create_for_navigation (required_sentences_for_nav : List SentenceType) :
    Except Unit Nmea :=
  if required_sentences_for_nav.isEmpty then .error ()
  else .ok { Nmea.new with required_sentences_for_nav := required_sentences_for_nav }

/-- `HashMap::get` on the association-list model. -/
def lookup_scan (scan : List (GnssType × List (List Satellite))) (k : GnssType) :
    Option (List (List Satellite)) :=
  match scan with
  | [] => none
  | (k', v) :: rest => if k' = k then some v else lookup_scan rest k

/-- In-place update of the association-list model (`get_mut`). -/
def update_scan (scan : List (GnssType × List (List Satellite))) (k : GnssType)
    (v : List (List Satellite)) : List (GnssType × List (List Satellite)) :=
  match scan with
  | [] => []
  | (k', v') :: rest =>
    if k' = k then (k', v) :: rest else (k', v') :: update_scan rest k v

/-- `Vec::resize(n, pad)`: truncate or pad to exactly `n` elements. -/
def vec_resize {α : Type} (v : List α) (n : Nat) (pad : α) : List α :=
  v.take n ++ List.replicate (n - v.length) pad

/-- `Vec::swap_remove(i)` for `i < length`: the element at `i` is replaced
by the last element and the length shrinks by one. -/
def swap_remove {α : Type} (l : List α) (i : Nat) (dflt : α) : List α :=
  (l.set i (l.getLastD dflt)).take (l.length - 1)

/-- The flattened satellite list: iterate the scan table, every slot of
every constellation, in order. -/
def flatten_scan (scan : List (GnssType × List (List Satellite))) : List Satellite :=
  (scan.map (fun kv => kv.2.flatten)).flatten

/-- `HashSet::insert` on the duplicate-free-list model. -/
def insert_sentence (l : List SentenceType) (t : SentenceType) : List SentenceType :=
  if t ∈ l then l else t :: l

/-- `HashSet::is_subset`. -/
def is_subset (l r : List SentenceType) : Bool :=
  l.all fun t => decide (t ∈ r)

/-- Outcome of `merge_gsv_data`: `panic` models the `swap_remove` abort on
an out-of-range index (a `sentence_num` of `0` underflows
`sentence_num as usize - 1`); `fail` is the `"Invalid GNSS type"` error. -/
inductive MergeOut where
  | panic
  | fail
  | ok (state : Nmea)
deriving DecidableEq, Repr

/-- `merge_gsv_data` from src/lib.rs: resize the constellation's slot
sequence to this scan's sentence count, push the new slot's satellites and
`swap_remove` them into position `sentence_num - 1`, then rebuild the
flattened list. -/
def merge_gsv_data (s : Nmea) (data : GsvData) : MergeOut :=
  match lookup_scan s.satellites_scan data.gnss_type with
  | none => .fail
  | some d =>
    let resized := vec_resize d data.number_of_sentences ([] : List Satellite)
    let pushed := resized ++ [data.sats_info.filterMap id]
    if data.sentence_num = 0 then .panic
    else if data.sentence_num - 1 < pushed.length then
      let d' := swap_remove pushed (data.sentence_num - 1) []
      let scan' := update_scan s.satellites_scan data.gnss_type d'
      .ok { s with satellites_scan := scan', satellites := flatten_scan scan' }
    else .panic

/-- `merge_gga_data`. -/
def merge_gga_data (s : Nmea) (gga_data : GgaData) : Nmea :=
  { s with fix_time := gga_data.fix_time, latitude := gga_data.latitude,
           longitude := gga_data.longitude, fix_type := gga_data.fix_type,
           num_of_fix_satellites := gga_data.fix_satellites,
           hdop := gga_data.hdop, altitude := gga_data.altitude,
           geoid_height := gga_data.geoid_height }

/-- `merge_rmc_data`. -/
def merge_rmc_data (s : Nmea) (rmc_data : RmcData) : Nmea :=
  { s with fix_time := rmc_data.fix_time, fix_date := rmc_data.fix_date,
           fix_type := rmc_data.status_of_fix.map (fun v =>
             match v with
             | .Autonomous => FixType.Gps
             | .Differential => FixType.DGps
             | .Invalid => FixType.Invalid),
           latitude := rmc_data.lat, longitude := rmc_data.lon,
           speed_over_ground := rmc_data.speed_over_ground,
           true_course := rmc_data.true_course }

/-- `merge_gsa_data`. -/
def merge_gsa_data (s : Nmea) (gsa : GsaData) : Nmea :=
  { s with fix_satellites_prns := some gsa.fix_sats_prn,
           hdop := gsa.hdop, vdop := gsa.vdop, pdop := gsa.pdop }

/-- `merge_vtg_data`. -/
def merge_vtg_data (s : Nmea) (vtg : VtgData) : Nmea :=
  { s with speed_over_ground := vtg.speed_over_ground,
           true_course := vtg.true_course }

/-- `new_tick`: replace the state by the default, carrying over only the
satellite inventory, the flattened list, the mandatory set and the stored
tick time. -/
def new_tick (s : Nmea) : Nmea :=
  { Nmea.default with
    satellites_scan := s.satellites_scan,
    satellites := s.satellites,
    required_sentences_for_nav := s.required_sentences_for_nav,
    last_fix_time := s.last_fix_time }

/-- `clear_position_info`: drop the stored tick time, then `new_tick`. -/
def clear_position_info (s : Nmea) : Nmea :=
  new_tick { s with last_fix_time := none }

/-- The error type of `parse_for_fix` (`String` in the source): a decode
failure or the merge failure `"Invalid GNSS type"`. -/
inductive PfError where
  | parse (e : ParseError)
  | invalidGnss
deriving DecidableEq, Repr

/-- Outcome of `parse_for_fix`: `panic` threads a `merge_gsv_data` abort. -/
inductive FixOut where
  | panic
  | fail (e : PfError)
  | ok (fix : FixType) (state : Nmea)
deriving DecidableEq, Repr

/-- The final fix verdict of `parse_for_fix`: the merged fix type only when
it is present, not `Invalid`, and the mandatory set is covered by the
sentences observed this tick. -/
def fix_verdict (s : Nmea) : FixOut :=
  match s.fix_type with
  | some .Invalid => .ok .Invalid s
  | none => .ok .Invalid s
  | some fix_type =>
    if is_subset s.required_sentences_for_nav s.sentences_for_this_time then
      .ok fix_type s
    else .ok .Invalid s

/-- The per-variant body of `parse_for_fix` (the `match parse(xs)?` arms of
src/lib.rs), as a function of the already-decoded sentence. -/
def process_parse_result (s : Nmea) (r : ParseResult) : FixOut :=
  match r with
  | .GSA gsa => .ok .Invalid (merge_gsa_data s gsa)
  | .GSV gsv_data =>
    match merge_gsv_data s gsv_data with
    | .panic => .panic
    | .fail => .fail .invalidGnss
    | .ok s' => .ok .Invalid s'
  | .VTG vtg =>
    if SentenceType.VTG ∈ s.required_sentences_for_nav then
      if vtg.true_course = none ∨ vtg.speed_over_ground = none then
        .ok .Invalid (clear_position_info s)
      else
        let s' := merge_vtg_data s vtg
        fix_verdict { s' with
          sentences_for_this_time := insert_sentence s'.sentences_for_this_time .VTG }
    else .ok .Invalid s
  | .RMC rmc_data =>
    match rmc_data.status_of_fix with
    | some .Invalid => .ok .Invalid (clear_position_info s)
    | none => .ok .Invalid (clear_position_info s)
    | some _ =>
      match s.last_fix_time, rmc_data.fix_time with
      | some last_fix_time, some rmc_fix_time =>
        let s1 := if last_fix_time ≠ rmc_fix_time then
            { new_tick s with last_fix_time := some rmc_fix_time }
          else s
        let s2 := merge_rmc_data s1 rmc_data
        fix_verdict { s2 with
          sentences_for_this_time := insert_sentence s2.sentences_for_this_time .RMC }
      | none, some rmc_fix_time =>
        let s1 := { s with last_fix_time := some rmc_fix_time }
        let s2 := merge_rmc_data s1 rmc_data
        fix_verdict { s2 with
          sentences_for_this_time := insert_sentence s2.sentences_for_this_time .RMC }
      | _, none => .ok .Invalid (clear_position_info s)
  | .GGA gga_data =>
    match gga_data.fix_type with
    | some .Invalid => .ok .Invalid (clear_position_info s)
    | none => .ok .Invalid (clear_position_info s)
    | some _ =>
      match s.last_fix_time, gga_data.fix_time with
      | some last_fix_time, some gga_fix_time =>
        let s1 := if last_fix_time ≠ gga_fix_time then
            { new_tick s with last_fix_time := some gga_fix_time }
          else s
        let s2 := merge_gga_data s1 gga_data
        fix_verdict { s2 with
          sentences_for_this_time := insert_sentence s2.sentences_for_this_time .GGA }
      | none, some gga_fix_time =>
        let s1 := { s with last_fix_time := some gga_fix_time }
        let s2 := merge_gga_data s1 gga_data
        fix_verdict { s2 with
          sentences_for_this_time := insert_sentence s2.sentences_for_this_time .GGA }
      | _, none => .ok .Invalid (clear_position_info s)
  | .Unsupported _ => .ok .Invalid s

/-- `parse_for_fix` from src/lib.rs. -/
def parse_for_fix (s : Nmea) (xs : List Nat) : FixOut :=
  match parse xs with
  | .error e => .fail (.parse e)
  | .ok r => process_parse_result s r

/-! ## Helper lemmas about the combinators and the error surface -/

theorem pbind_ok {α β : Type} {p : Parser α} {f : α → Parser β} {input : List Nat}
    {b : β} {rest : List Nat} :
    pbind p f input = .ok (b, rest) ↔
      ∃ a mid, p input = .ok (a, mid) ∧ f a mid = .ok (b, rest) := by
  unfold pbind
  constructor
  · intro h
    match hp : p input with
    | .error e => rw [hp] at h; exact absurd h (by simp)
    | .ok (a, mid) => rw [hp] at h; exact ⟨a, mid, rfl, h⟩
  · rintro ⟨a, mid, hp, hf⟩
    rw [hp]
    exact hf

theorem pmapRes_ok {α β : Type} {p : Parser α} {f : α → Except ParseError β}
    {input : List Nat} {b : β} {rest : List Nat} :
    pmapRes p f input = .ok (b, rest) ↔
      ∃ a, p input = .ok (a, rest) ∧ f a = .ok b := by
  constructor
  · intro h
    match hp : p input with
    | .error e => simp [pmapRes, hp] at h
    | .ok (a, mid) =>
      match hf : f a with
      | .error e => simp [pmapRes, hp, hf] at h
      | .ok b' =>
        simp [pmapRes, hp, hf] at h
        rcases h with ⟨rfl, rfl⟩
        exact ⟨a, rfl, hf⟩
  · rintro ⟨a, hp, hf⟩
    simp [pmapRes, hp, hf]

theorem nom_err_ne_too_long (e : NomErr) : nom_err e ≠ ParseError.TooLongMessage := by
  cases e <;> simp [nom_err]

theorem parse_gga_ne_too_long (s : NmeaSentence) :
    parse_gga s ≠ .error .TooLongMessage := by
  unfold parse_gga
  split
  · simp
  · split
    · exact fun h => nom_err_ne_too_long _ (by simpa using h)
    · simp

theorem parse_rmc_ne_too_long (s : NmeaSentence) :
    parse_rmc s ≠ .error .TooLongMessage := by
  unfold parse_rmc
  split
  · simp
  · split
    · exact fun h => nom_err_ne_too_long _ (by simpa using h)
    · simp

theorem parse_gsa_ne_too_long (s : NmeaSentence) :
    parse_gsa s ≠ .error .TooLongMessage := by
  unfold parse_gsa
  split
  · simp
  · split
    · exact fun h => nom_err_ne_too_long _ (by simpa using h)
    · simp

theorem parse_vtg_ne_too_long (s : NmeaSentence) :
    parse_vtg s ≠ .error .TooLongMessage := by
  unfold parse_vtg
  split
  · simp
  · split
    · exact fun h => nom_err_ne_too_long _ (by simpa using h)
    · simp

theorem dispatch_ne_too_long (s : NmeaSentence) :
    dispatch_sentence s ≠ .error .TooLongMessage := by
  unfold dispatch_sentence
  split
  · intro h
    match he : parse_gga s with
    | .error e => rw [he] at h; simp [Except.map] at h; exact parse_gga_ne_too_long s (by rw [he, h])
    | .ok v => rw [he] at h; simp [Except.map] at h
  · split
    · intro h
      match he : parse_rmc s with
      | .error e => rw [he] at h; simp [Except.map] at h; exact parse_rmc_ne_too_long s (by rw [he, h])
      | .ok v => rw [he] at h; simp [Except.map] at h
    · split
      · intro h
        match he : parse_gsa s with
        | .error e => rw [he] at h; simp [Except.map] at h; exact parse_gsa_ne_too_long s (by rw [he, h])
        | .ok v => rw [he] at h; simp [Except.map] at h
      · split
        · intro h
          match he : parse_vtg s with
          | .error e => rw [he] at h; simp [Except.map] at h; exact parse_vtg_ne_too_long s (by rw [he, h])
          | .ok v => rw [he] at h; simp [Except.map] at h
        · simp

/-! ## C9 : the 102-byte length guard -/

/-- C9: an input longer than 102 bytes makes both `parse_nmea_sentence`
and `parse` return `TooLongMessage` before any grammar parsing, while an
input of at most 102 bytes is never rejected with `TooLongMessage`. -/
theorem C9_length_guard (xs : List Nat) :
    (102 < xs.length →
      parse_nmea_sentence xs = .error .TooLongMessage ∧
      parse xs = .error .TooLongMessage) ∧
    (xs.length ≤ 102 →
      parse_nmea_sentence xs ≠ .error .TooLongMessage ∧
      parse xs ≠ .error .TooLongMessage) := by
  constructor
  · intro hlen
    have h1 : parse_nmea_sentence xs = .error .TooLongMessage := by
      unfold parse_nmea_sentence
      rw [if_pos hlen]
    exact ⟨h1, by unfold parse; rw [h1]⟩
  · intro hlen
    have hno : ¬ xs.length > 102 := by omega
    have h1 : ∀ r, parse_nmea_sentence xs = r → r ≠ .error .TooLongMessage := by
      intro r hr
      unfold parse_nmea_sentence at hr
      rw [if_neg hno] at hr
      match hd : do_parse_nmea_sentence xs with
      | .error e => rw [hd] at hr; subst hr; exact fun h => nom_err_ne_too_long e (by simpa using h)
      | .ok (s, rest) => rw [hd] at hr; subst hr; simp
    refine ⟨h1 _ rfl, ?_⟩
    cases hp : parse_nmea_sentence xs with
    | error e =>
      have he := h1 _ hp
      have hpe : parse xs = .error e := by unfold parse; rw [hp]
      rw [hpe]
      simpa using he
    | ok s =>
      have hpe : parse xs =
          if s.checksum = calc_checksum s then dispatch_sentence s
          else .error .ChecksumFail := by
        unfold parse; rw [hp]
      rw [hpe]
      split
      · exact dispatch_ne_too_long s
      · simp

/-- C9 witness: a 103-byte input is rejected with `TooLongMessage`; a short
well-formed sentence is not rejected for length. -/
theorem C9_length_guard_witness :
    parse_nmea_sentence (List.replicate 103 36) = .error .TooLongMessage ∧
    parse (bytesOf "$AAZZZ,*76") ≠ .error .TooLongMessage :=
  ⟨((C9_length_guard (List.replicate 103 36)).1 (by decide)).1,
   ((C9_length_guard (bytesOf "$AAZZZ,*76")).2 (by decide)).2⟩

/-! ## More combinator inversions -/

theorem ppure_ok {α : Type} {a b : α} {input rest : List Nat}
    (h : ppure a input = .ok (b, rest)) : b = a ∧ rest = input := by
  have h' := by simpa [ppure] using h
  exact ⟨h'.1.symm, h'.2.symm⟩

theorem pchar_shape {c : Nat} {input rest : List Nat} {u : Unit}
    (h : pchar c input = .ok (u, rest)) : input = c :: rest := by
  match input with
  | [] => simp [pchar] at h
  | x :: r =>
    by_cases hx : x = c
    · subst hx
      have h' := by simpa [pchar] using h
      rw [h']
    · simp [pchar, hx] at h

theorem ptake_shape {n : Nat} {input v rest : List Nat}
    (h : ptake n input = .ok (v, rest)) :
    input = v ++ rest ∧ v.length = n := by
  unfold ptake at h
  by_cases hn : n ≤ input.length
  · rw [if_pos hn] at h
    have h' : input.take n = v ∧ input.drop n = rest := by simpa using h
    obtain ⟨h1, h2⟩ := h'
    subst h1
    subst h2
    exact ⟨(List.take_append_drop n input).symm, by simp [hn]⟩
  · rw [if_neg hn] at h
    simp at h

theorem dropWhile_ne_head {d : Nat} {l : List Nat} (hm : d ∈ l) :
    ∃ t, l.dropWhile (fun x => decide (x ≠ d)) = d :: t := by
  induction l with
  | nil => cases hm
  | cons x r ih =>
    by_cases hx : x = d
    · subst hx
      exact ⟨r, by simp [List.dropWhile_cons]⟩
    · have hm' : d ∈ r := by
        cases hm with
        | head => exact absurd rfl hx
        | tail _ h => exact h
      obtain ⟨t, ht⟩ := ih hm'
      exact ⟨t, by simpa [List.dropWhile_cons, hx] using ht⟩

theorem ptake_until_shape {d : Nat} {input v rest : List Nat}
    (h : ptake_until d input = .ok (v, rest)) :
    input = v ++ rest ∧ d ∉ v ∧ ∃ t, rest = d :: t := by
  unfold ptake_until at h
  by_cases hm : d ∈ input
  · rw [if_pos hm] at h
    have h' : input.takeWhile (fun x => x ≠ d) = v ∧ input.dropWhile (fun x => x ≠ d) = rest := by
      simpa using h
    obtain ⟨h1, h2⟩ := h'
    subst h1
    subst h2
    refine ⟨(List.takeWhile_append_dropWhile (p := fun x => decide (x ≠ d))
      (l := input)).symm, ?_, ?_⟩
    · intro hmem
      have := List.mem_takeWhile_imp hmem
      simp at this
    · exact dropWhile_ne_head hm
  · rw [if_neg hm] at h
    simp at h

theorem pone_of_shape {cs : List Nat} {input rest : List Nat} {c : Nat}
    (h : pone_of cs input = .ok (c, rest)) : input = c :: rest ∧ c ∈ cs := by
  match input with
  | [] => simp [pone_of] at h
  | x :: r =>
    by_cases hx : x ∈ cs
    · have h' : x = c ∧ r = rest := by simpa [pone_of, hx] using h
      obtain ⟨rfl, rfl⟩ := h'
      exact ⟨rfl, hx⟩
    · simp [pone_of, hx] at h

/-! ## C4 : checksum computation and validation -/

/-- Lower-casing of an ASCII byte, used to state case-insensitivity. -/
def to_lower_byte (b : Nat) : Nat := if 65 ≤ b ∧ b ≤ 90 then b + 32 else b

theorem hex_range {b : Nat} (h : is_hex_digit_byte b = true) :
    (48 ≤ b ∧ b ≤ 57) ∨ (97 ≤ b ∧ b ≤ 102) ∨ (65 ≤ b ∧ b ≤ 70) := by
  simpa [is_hex_digit_byte, Bool.or_eq_true, Bool.and_eq_true, decide_eq_true_eq,
    or_assoc] using h

theorem hex_val_lt16 {b : Nat} (h : is_hex_digit_byte b = true) : hex_val b < 16 := by
  have hr := hex_range h
  unfold hex_val
  split
  · omega
  · split
    · omega
    · omega

theorem parse_hex_pair {b1 b2 : Nat} (h1 : is_hex_digit_byte b1 = true)
    (h2 : is_hex_digit_byte b2 = true) :
    parse_hex [b1, b2] = .ok (16 * hex_val b1 + hex_val b2) := by
  have hb1 : b1 ≠ 43 ∧ b1 ≠ 45 := by
    rcases hex_range h1 with ⟨ha, hb⟩ | ⟨ha, hb⟩ | ⟨ha, hb⟩ <;> omega
  have hval : hex_digits_val [b1, b2] = 16 * hex_val b1 + hex_val b2 := by
    simp [hex_digits_val]
  have hv1 := hex_val_lt16 h1
  have hv2 := hex_val_lt16 h2
  have hlt : hex_digits_val [b1, b2] < 256 := by
    rw [hval]
    omega
  simp [parse_hex, hb1.1, hb1.2, h1, h2, hlt, hval]
  omega

theorem to_lower_hex {b : Nat} (h : is_hex_digit_byte b = true) :
    is_hex_digit_byte (to_lower_byte b) = true ∧ hex_val (to_lower_byte b) = hex_val b := by
  rcases hex_range h with ⟨h1, h2⟩ | ⟨h1, h2⟩ | ⟨h1, h2⟩
  · have hl : to_lower_byte b = b := by
      unfold to_lower_byte
      rw [if_neg (by omega)]
    rw [hl]
    exact ⟨h, rfl⟩
  · have hl : to_lower_byte b = b := by
      unfold to_lower_byte
      rw [if_neg (by omega)]
    rw [hl]
    exact ⟨h, rfl⟩
  · have hl : to_lower_byte b = b + 32 := by
      unfold to_lower_byte
      rw [if_pos (by omega)]
    rw [hl]
    constructor
    · simp [is_hex_digit_byte, decide_eq_true_eq]
      omega
    · have e1 : hex_val (b + 32) = b + 32 - 87 := by
        unfold hex_val
        rw [if_neg (by omega), if_pos (by omega)]
      have e2 : hex_val b = b - 55 := by
        unfold hex_val
        rw [if_neg (by omega), if_neg (by omega)]
      rw [e1, e2]
      omega

theorem frame_shape {xs : List Nat} {s : NmeaSentence} {rem : List Nat}
    (h : do_parse_nmea_sentence xs = .ok (s, rem)) :
    ∃ c1 c2, xs = 36 :: (s.talker_id ++ s.message_id ++ 44 :: s.data) ++ 42 :: c1 :: c2 :: rem ∧
      s.talker_id.length = 2 ∧ s.message_id.length = 3 ∧ 42 ∉ s.data ∧
      parse_hex [c1, c2] = .ok s.checksum := by
  unfold do_parse_nmea_sentence at h
  obtain ⟨u1, r1, h1, h⟩ := pbind_ok.mp h
  obtain ⟨t, r2, h2, h⟩ := pbind_ok.mp h
  obtain ⟨m, r3, h3, h⟩ := pbind_ok.mp h
  obtain ⟨u2, r4, h4, h⟩ := pbind_ok.mp h
  obtain ⟨d, r5, h5, h⟩ := pbind_ok.mp h
  obtain ⟨cs, r6, h6, h⟩ := pbind_ok.mp h
  obtain ⟨hs, hrem⟩ := ppure_ok h
  obtain ⟨csb, hinner, hhex⟩ := pmapRes_ok.mp h6
  obtain ⟨u3, r7, h7, hinner⟩ := pbind_ok.mp hinner
  obtain ⟨csb2, r8, h8, hinner⟩ := pbind_ok.mp hinner
  obtain ⟨hcsb, hr8⟩ := ppure_ok hinner
  have e1 := pchar_shape h1
  obtain ⟨e2, elen2⟩ := ptake_shape h2
  obtain ⟨e3, elen3⟩ := ptake_shape h3
  have e4 := pchar_shape h4
  obtain ⟨e5, hnostar, t5, e5'⟩ := ptake_until_shape h5
  have e7 := pchar_shape h7
  obtain ⟨e8, elen8⟩ := ptake_shape h8
  obtain ⟨c1, c2, ecs⟩ : ∃ c1 c2, csb2 = [c1, c2] := by
    match csb2, elen8 with
    | [c1, c2], _ => exact ⟨c1, c2, rfl⟩
  subst hs
  subst hcsb
  subst ecs
  refine ⟨c1, c2, ?_, elen2, elen3, hnostar, ?_⟩
  · subst hr8
    subst e8
    subst e7
    subst e5
    subst e4
    subst e3
    subst e2
    subst e1
    subst hrem
    simp
  · exact hhex

theorem parse_nmea_sentence_ok {xs : List Nat} {s : NmeaSentence}
    (h : parse_nmea_sentence xs = .ok s) :
    ∃ rem, do_parse_nmea_sentence xs = .ok (s, rem) := by
  unfold parse_nmea_sentence at h
  by_cases hl : xs.length > 102
  · rw [if_pos hl] at h
    simp at h
  · rw [if_neg hl] at h
    match hd : do_parse_nmea_sentence xs with
    | .error e => rw [hd] at h; simp at h
    | .ok (s', rem) =>
      rw [hd] at h
      have hss : s' = s := by simpa using h
      subst hss
      exact ⟨rem, rfl⟩

/-- C4: for a structurally framed sentence, the two checksum bytes sit
right after the `*` that ends the payload and denote the stored checksum
through the hex parser; the computed checksum is the XOR-fold over talker
id, message id, the comma and the payload; `parse` goes on to the
message-id dispatch exactly when the parsed value equals the computed one,
and fails with `ChecksumFail` otherwise; the hex digits are accepted
case-insensitively. -/
theorem C4_checksum_gate (xs : List Nat) (s : NmeaSentence)
    (hframe : parse_nmea_sentence xs = .ok s) :
    (∃ c1 c2 rem,
        xs = 36 :: (s.talker_id ++ s.message_id ++ 44 :: s.data) ++ 42 :: c1 :: c2 :: rem ∧
        parse_hex [c1, c2] = .ok s.checksum) ∧
    calc_checksum s = (s.talker_id ++ s.message_id ++ 44 :: s.data).foldl Nat.xor 0 ∧
    (s.checksum ≠ calc_checksum s → parse xs = .error .ChecksumFail) ∧
    (s.checksum = calc_checksum s → parse xs = dispatch_sentence s) ∧
    (∀ b1 b2, is_hex_digit_byte b1 = true → is_hex_digit_byte b2 = true →
      parse_hex [b1, b2] = .ok (16 * hex_val b1 + hex_val b2) ∧
      parse_hex [to_lower_byte b1, to_lower_byte b2] = parse_hex [b1, b2]) := by
  refine ⟨?_, rfl, ?_, ?_, ?_⟩
  · obtain ⟨rem, hd⟩ := parse_nmea_sentence_ok hframe
    obtain ⟨c1, c2, hshape, _, _, _, hhex⟩ := frame_shape hd
    exact ⟨c1, c2, rem, hshape, hhex⟩
  · intro hne
    have hpe : parse xs =
        if s.checksum = calc_checksum s then dispatch_sentence s
        else .error .ChecksumFail := by
      unfold parse
      rw [hframe]
    rw [hpe, if_neg hne]
  · intro heq
    have hpe : parse xs =
        if s.checksum = calc_checksum s then dispatch_sentence s
        else .error .ChecksumFail := by
      unfold parse
      rw [hframe]
    rw [hpe, if_pos heq]
  · intro b1 b2 h1 h2
    obtain ⟨hl1, hv1⟩ := to_lower_hex h1
    obtain ⟨hl2, hv2⟩ := to_lower_hex h2
    refine ⟨parse_hex_pair h1 h2, ?_⟩
    rw [parse_hex_pair h1 h2, parse_hex_pair hl1 hl2, hv1, hv2]

/-- C4 witness: a concrete GGA sentence with a corrupted checksum is
rejected with `ChecksumFail`; the same sentence with the correct checksum
reaches the dispatch; `2E` and `2e` denote the same checksum byte. -/
theorem C4_checksum_gate_witness :
    parse (bytesOf "$GPGGA,092750.000,5321.6802,N,00630.3372,W,1,8,1.03,61.7,M,55.2,M,,*77") =
      .error .ChecksumFail ∧
    parse (bytesOf "$GPGGA,092750.000,5321.6802,N,00630.3372,W,1,8,1.03,61.7,M,55.2,M,,*76") =
      dispatch_sentence
        { talker_id := bytesOf "GP", message_id := bytesOf "GGA",
          data := bytesOf "092750.000,5321.6802,N,00630.3372,W,1,8,1.03,61.7,M,55.2,M,,",
          checksum := 118 } ∧
    parse_hex [50, 101] = parse_hex [50, 69] :=
  ⟨((C4_checksum_gate
      (bytesOf "$GPGGA,092750.000,5321.6802,N,00630.3372,W,1,8,1.03,61.7,M,55.2,M,,*77")
      { talker_id := bytesOf "GP", message_id := bytesOf "GGA",
        data := bytesOf "092750.000,5321.6802,N,00630.3372,W,1,8,1.03,61.7,M,55.2,M,,",
        checksum := 119 } (by decide)).2.2.1 (by decide)),
   ((C4_checksum_gate
      (bytesOf "$GPGGA,092750.000,5321.6802,N,00630.3372,W,1,8,1.03,61.7,M,55.2,M,,*76")
      { talker_id := bytesOf "GP", message_id := bytesOf "GGA",
        data := bytesOf "092750.000,5321.6802,N,00630.3372,W,1,8,1.03,61.7,M,55.2,M,,",
        checksum := 118 } (by decide)).2.2.2.1 (by decide)),
   (by
      have h := (C4_checksum_gate
        (bytesOf "$GPGGA,092750.000,5321.6802,N,00630.3372,W,1,8,1.03,61.7,M,55.2,M,,*76")
        { talker_id := bytesOf "GP", message_id := bytesOf "GGA",
          data := bytesOf "092750.000,5321.6802,N,00630.3372,W,1,8,1.03,61.7,M,55.2,M,,",
          checksum := 118 } (by decide)).2.2.2.2 50 69 (by decide) (by decide)
      have : to_lower_byte 50 = 50 := by decide
      rw [this] at h
      have h2e : to_lower_byte 69 = 101 := by decide
      rw [h2e] at h
      exact h.2)⟩

/-! ## C1 : GSV dispatch -/

/-- C1: the frozen code contradicts the spec here.  A well-formed `GPGSV`/
`GLGSV` sentence that frames, passes the checksum and whose payload the GSV
field grammar accepts (second conjunct: `parse_gsv` decodes it) is
dispatched by `parse` as `Unsupported` carrying the raw bytes `GSV` — the
`ParseResult` enum written in src/parse.rs has no `GSV` variant and `parse`
has no `GSV` arm, although src/lib.rs and the tests match on
`ParseResult::GSV`.  Message ids outside the five supported types are
`Unsupported` as specified (third conjunct). -/
theorem C1_gsv_dispatched_unsupported :
    parse (bytesOf "$GLGSV,3,3,10,72,40,075,43,87,00,000,*6F") =
      .ok (.Unsupported (bytesOf "GSV")) ∧
    parse_gsv
      { talker_id := bytesOf "GL", message_id := bytesOf "GSV",
        data := bytesOf "3,3,10,72,40,075,43,87,00,000,", checksum := 111 } =
      .ok { gnss_type := .Glonass, number_of_sentences := 3, sentence_num := 3,
            sats_in_view := 10,
            sats_info :=
              [some { gnss_type := .Glonass, prn := 72, elevation := some 40,
                      azimuth := some 75, snr := some 43 },
               some { gnss_type := .Glonass, prn := 87, elevation := some 0,
                      azimuth := some 0, snr := none },
               none, none] } ∧
    parse (bytesOf "$AAZZZ,*76") = .ok (.Unsupported (bytesOf "ZZZ")) := by
  refine ⟨by decide, by decide, by decide⟩

/-! ## C2 : panic-freedom -/

theorem vec_resize_length {α : Type} (v : List α) (n : Nat) (pad : α) :
    (vec_resize v n pad).length = n := by
  simp [vec_resize]
  omega

theorem dispatch_no_gsv (s : NmeaSentence) (g : GsvData) :
    dispatch_sentence s ≠ .ok (.GSV g) := by
  unfold dispatch_sentence
  split
  · intro h
    match he : parse_gga s with
    | .error e => rw [he] at h; simp [Except.map] at h
    | .ok v => rw [he] at h; simp [Except.map] at h
  · split
    · intro h
      match he : parse_rmc s with
      | .error e => rw [he] at h; simp [Except.map] at h
      | .ok v => rw [he] at h; simp [Except.map] at h
    · split
      · intro h
        match he : parse_gsa s with
        | .error e => rw [he] at h; simp [Except.map] at h
        | .ok v => rw [he] at h; simp [Except.map] at h
      · split
        · intro h
          match he : parse_vtg s with
          | .error e => rw [he] at h; simp [Except.map] at h
          | .ok v => rw [he] at h; simp [Except.map] at h
        · simp

/-- `parse` can never produce the `GSV` constructor: src/parse.rs has no
dispatch arm for it. -/
theorem parse_no_gsv (xs : List Nat) (g : GsvData) : parse xs ≠ .ok (.GSV g) := by
  cases hp : parse_nmea_sentence xs with
  | error e =>
    have : parse xs = .error e := by unfold parse; rw [hp]
    rw [this]
    simp
  | ok s =>
    have : parse xs =
        if s.checksum = calc_checksum s then dispatch_sentence s
        else .error .ChecksumFail := by
      unfold parse; rw [hp]
    rw [this]
    split
    · exact dispatch_no_gsv s g
    · simp

theorem fix_verdict_no_panic (s : Nmea) : fix_verdict s ≠ .panic := by
  unfold fix_verdict
  split
  · simp
  · simp
  · split <;> simp

theorem process_no_panic (s : Nmea) (r : ParseResult) (hg : ∀ g, r ≠ .GSV g) :
    process_parse_result s r ≠ .panic := by
  match r with
  | .GSA gsa => simp [process_parse_result]
  | .GSV g => exact absurd rfl (hg g)
  | .VTG vtg =>
    simp only [process_parse_result]
    split
    · split
      · simp
      · exact fix_verdict_no_panic _
    · simp
  | .RMC rmc =>
    simp only [process_parse_result]
    split
    · simp
    · simp
    · split
      · exact fix_verdict_no_panic _
      · exact fix_verdict_no_panic _
      · simp
  | .GGA gga =>
    simp only [process_parse_result]
    split
    · simp
    · simp
    · split
      · exact fix_verdict_no_panic _
      · exact fix_verdict_no_panic _
      · simp
  | .Unsupported m => simp [process_parse_result]

/-- C2 counterexample: a GSV payload the grammar accepts, with sentence
number `0`, makes `merge_gsv_data` abort (`sentence_num as usize - 1`
under `Vec::swap_remove`), even from the freshly constructed state. -/
theorem C2_counterexample_gsv_panic :
    parse_gsv
      { talker_id := bytesOf "GP", message_id := bytesOf "GSV",
        data := bytesOf "1,0,00,", checksum := 0 } =
      .ok { gnss_type := .Gps, number_of_sentences := 1, sentence_num := 0,
            sats_in_view := 0, sats_info := [none, none, none, none] } ∧
    merge_gsv_data Nmea.new
      { gnss_type := .Gps, number_of_sentences := 1, sentence_num := 0,
        sats_in_view := 0, sats_info := [none, none, none, none] } = .panic := by
  refine ⟨by decide, by decide⟩

/-- C2 (amended): `merge_gsv_data` cannot abort when `1 ≤ sentence_num ≤
number_of_sentences + 1` (it does abort outside that range, see the
counterexample); and `parse_for_fix` never aborts on any input byte
sequence — in the frozen code `parse` never produces a GSV record, so the
merge that could abort is unreachable from `parse_for_fix`. -/
theorem C2_no_panic :
    (∀ (s : Nmea) (d : GsvData), 1 ≤ d.sentence_num →
      d.sentence_num ≤ d.number_of_sentences + 1 → merge_gsv_data s d ≠ .panic) ∧
    (∀ (s : Nmea) (xs : List Nat), parse_for_fix s xs ≠ .panic) := by
  constructor
  · intro s d h1 h2
    cases hl : lookup_scan s.satellites_scan d.gnss_type with
    | none => simp [merge_gsv_data, hl]
    | some v =>
      simp only [merge_gsv_data, hl]
      split
      · rename_i hc
        omega
      · split
        · simp
        · rename_i hc hlen
          exfalso
          apply hlen
          simp [vec_resize_length]
          omega
  · intro s xs h
    unfold parse_for_fix at h
    match hp : parse xs with
    | .error e => rw [hp] at h; simp at h
    | .ok r =>
      rw [hp] at h
      have hg : ∀ g, r ≠ .GSV g := by
        intro g hr
        exact parse_no_gsv xs g (by rw [hp, hr])
      exact process_no_panic s r hg h

/-- C2 witness: concrete instances of both panic-freedom statements. -/
theorem C2_no_panic_witness :
    merge_gsv_data Nmea.new
      { gnss_type := .Gps, number_of_sentences := 1, sentence_num := 1,
        sats_in_view := 0, sats_info := [none, none, none, none] } ≠ .panic ∧
    parse_for_fix Nmea.new (bytesOf "$GLGSV,3,3,10,72,40,075,43,87,00,000,*6F") ≠ .panic :=
  ⟨C2_no_panic.1 Nmea.new
      { gnss_type := .Gps, number_of_sentences := 1, sentence_num := 1,
        sats_in_view := 0, sats_info := [none, none, none, none] }
      (by decide) (by decide),
   C2_no_panic.2 Nmea.new (bytesOf "$GLGSV,3,3,10,72,40,075,43,87,00,000,*6F")⟩

/-! ## C10 : RMC status is always present -/

theorem construct_rmc_status
    {d : Option NaiveTime × Nat × Option (Rat × Rat) × Option Rat × Option Rat ×
         Option NaiveDate} {r : RmcData}
    (h : construct_rmc d = .ok r) : ∃ st, r.status_of_fix = some st := by
  unfold construct_rmc at h
  split at h
  · simp at h
  · rename_i st _
    have : r.status_of_fix = some st := by
      have hr := by simpa using h
      rw [← hr]
    exact ⟨st, this⟩

theorem dispatch_rmc_inv {s : NmeaSentence} {r : RmcData}
    (h : dispatch_sentence s = .ok (.RMC r)) : parse_rmc s = .ok r := by
  unfold dispatch_sentence at h
  split at h
  · match he : parse_gga s with
    | .error e => rw [he] at h; simp [Except.map] at h
    | .ok v => rw [he] at h; simp [Except.map] at h
  · split at h
    · match he : parse_rmc s with
      | .error e => rw [he] at h; simp [Except.map] at h
      | .ok v =>
        rw [he] at h
        simp [Except.map] at h
        rw [h]
    · split at h
      · match he : parse_gsa s with
        | .error e => rw [he] at h; simp [Except.map] at h
        | .ok v => rw [he] at h; simp [Except.map] at h
      · split at h
        · match he : parse_vtg s with
          | .error e => rw [he] at h; simp [Except.map] at h
          | .ok v => rw [he] at h; simp [Except.map] at h
        · simp at h

theorem parse_rmc_ok_inv {s : NmeaSentence} {r : RmcData}
    (h : parse_rmc s = .ok r) : ∃ rest, do_parse_rmc s.data = .ok (r, rest) := by
  unfold parse_rmc at h
  split at h
  · simp at h
  · match hd : do_parse_rmc s.data with
    | .error e => rw [hd] at h; simp at h
    | .ok (r', rest) =>
      rw [hd] at h
      have : r' = r := by simpa using h
      subst this
      exact ⟨rest, rfl⟩

/-- C10: every RMC record produced by `parse` carries a present
`status_of_fix` — the `one_of!("ADV")` grammar plus the `Some(..)` in
`construct_rmc` make an absent status impossible, so the `None` arm of the
RMC branch of `parse_for_fix` can never fire on a decoded record. -/
theorem C10_rmc_status_present (xs : List Nat) (r : RmcData)
    (h : parse xs = .ok (.RMC r)) : r.status_of_fix.isSome = true := by
  have hrmc : ∃ s, parse_rmc s = .ok r := by
    cases hp : parse_nmea_sentence xs with
    | error e =>
      have : parse xs = .error e := by unfold parse; rw [hp]
      rw [this] at h
      simp at h
    | ok s =>
      have hif : parse xs =
          if s.checksum = calc_checksum s then dispatch_sentence s
          else .error .ChecksumFail := by
        unfold parse; rw [hp]
      rw [hif] at h
      split at h
      · exact ⟨s, dispatch_rmc_inv h⟩
      · simp at h
  obtain ⟨s, hs⟩ := hrmc
  obtain ⟨rest, hd⟩ := parse_rmc_ok_inv hs
  obtain ⟨tuple, hbody, hcr⟩ := pmapRes_ok.mp hd
  obtain ⟨st, hst⟩ := construct_rmc_status hcr
  rw [hst]
  rfl

/-- C10 witness: the decoded record of a concrete `V`-status RMC sentence
has a present status. -/
theorem C10_rmc_status_present_witness :
    (RmcData.mk none none (some .Invalid) none none none none).status_of_fix.isSome = true :=
  C10_rmc_status_present (bytesOf "$GPRMC,,V,,,,,,,,,,N*53")
    (RmcData.mk none none (some .Invalid) none none none none) (by decide)

/-! ## C7 : the RMC status letter -/

/-- C7 counterexample: a status letter outside `ADV` (here `X`) makes the
RMC decoder fail with the generic grammar failure `Nom`, not with
`InvalidFixStatus` — `one_of!("ADV")` rejects the byte before the
`construct_rmc` closure (whose `InvalidFixStatus` arm is dead code), and
nom 4's `map_res!` discards custom errors anyway. -/
theorem C7_counterexample_status_x :
    parse (bytesOf "$GPRMC,,X,,,,,,,,,,N*5D") = .error .Nom ∧
    ParseError.Nom ≠ ParseError.InvalidFixStatus := by
  refine ⟨by decide, by decide⟩

/-- C7 (amended): in an RMC payload whose time field parses and is
followed by the comma and the status byte `c`, a `c` outside `ADV` makes
`do_parse_rmc` fail with the grammar failure (surfaced by `parse_rmc` as
`Nom`, never as `InvalidFixStatus`), while on success `A` decodes to
`Autonomous`, `D` to `Differential` and `V` to `Invalid`. -/
theorem C7_rmc_status_letters :
    (∀ (input rest : List Nat) (t : Option NaiveTime) (c : Nat) (tk : List Nat) (cs : Nat),
      popt (pcomplete parse_hms) input = .ok (t, 44 :: c :: rest) →
      c ∉ [65, 68, 86] →
      do_parse_rmc input = .error .fail ∧
      parse_rmc { talker_id := tk, message_id := bytesOf "RMC", data := input,
                  checksum := cs } = .error .Nom) ∧
    (∀ (input rem rest : List Nat) (t : Option NaiveTime) (c : Nat) (r : RmcData),
      popt (pcomplete parse_hms) input = .ok (t, 44 :: c :: rest) →
      do_parse_rmc input = .ok (r, rem) →
      r.status_of_fix =
        some (if c = 65 then .Autonomous else if c = 68 then .Differential else .Invalid)) := by
  constructor
  · intro input rest t c tk cs h hc
    have hbody : do_parse_rmc_body input = .error .fail := by
      unfold do_parse_rmc_body
      simp only [pbind, h]
      simp [pchar, pone_of, hc]
    have hdo : do_parse_rmc input = .error .fail := by
      simp [do_parse_rmc, pmapRes, hbody]
    refine ⟨hdo, ?_⟩
    simp [parse_rmc, hdo, nom_err]
  · intro input rem rest t c r h h2
    obtain ⟨tuple, hbody, hcr⟩ := pmapRes_ok.mp h2
    unfold do_parse_rmc_body at hbody
    obtain ⟨t', mid, hpopt, hbody⟩ := pbind_ok.mp hbody
    obtain ⟨ht', hmid⟩ : t' = t ∧ mid = 44 :: c :: rest := by
      have := hpopt.symm.trans h
      simpa using this
    subst ht'
    subst hmid
    obtain ⟨u1, mid2, hchar, hbody⟩ := pbind_ok.mp hbody
    have hmid2 : mid2 = c :: rest := by
      have := pchar_shape hchar
      simpa using this.symm
    subst hmid2
    obtain ⟨c', mid3, hone, hbody⟩ := pbind_ok.mp hbody
    obtain ⟨hc1, hc2⟩ := pone_of_shape hone
    obtain ⟨hc', hmid3⟩ : c = c' ∧ rest = mid3 := by simpa using hc1
    subst hc'
    subst hmid3
    obtain ⟨u2, m4, hch2, hbody⟩ := pbind_ok.mp hbody
    obtain ⟨latlon, m5, hll, hbody⟩ := pbind_ok.mp hbody
    obtain ⟨u3, m6, hch3, hbody⟩ := pbind_ok.mp hbody
    obtain ⟨spd, m7, hspd, hbody⟩ := pbind_ok.mp hbody
    obtain ⟨u4, m8, hch4, hbody⟩ := pbind_ok.mp hbody
    obtain ⟨crs, m9, hcrs, hbody⟩ := pbind_ok.mp hbody
    obtain ⟨u5, m10, hch5, hbody⟩ := pbind_ok.mp hbody
    obtain ⟨dt, m11, hdt, hbody⟩ := pbind_ok.mp hbody
    obtain ⟨u6, m12, hch6, hbody⟩ := pbind_ok.mp hbody
    obtain ⟨htuple, hm⟩ := ppure_ok hbody
    subst htuple
    have hc2' : c = 65 ∨ c = 68 ∨ c = 86 := by simpa using hc2
    rcases hc2' with rfl | rfl | rfl
    · have h' := by simpa [construct_rmc] using hcr
      rw [← h']
      simp
    · have h' := by simpa [construct_rmc] using hcr
      rw [← h']
      simp
    · have h' := by simpa [construct_rmc] using hcr
      rw [← h']
      simp

/-- C7 witness: the general status-letter theorem applied to the concrete
payloads `,X,...` (rejected with the grammar failure) and `,V,...`
(decoding to `Invalid`). -/
theorem C7_rmc_status_letters_witness :
    parse_rmc { talker_id := bytesOf "GP", message_id := bytesOf "RMC",
                data := bytesOf ",X,,,,,,,,,,N", checksum := 93 } = .error .Nom ∧
    (RmcData.mk none none (some .Invalid) none none none none).status_of_fix =
      some (if 86 = 65 then .Autonomous else if 86 = 68 then .Differential else .Invalid) :=
  ⟨(C7_rmc_status_letters.1 (bytesOf ",X,,,,,,,,,,N")
      (bytesOf ",,,,,,,,,,N") none 88 (bytesOf "GP") 93 (by decide) (by decide)).2,
   C7_rmc_status_letters.2 (bytesOf ",V,,,,,,,,,,N") (bytesOf ",,N")
      (bytesOf ",,,,,,,,,,N") none 86
      (RmcData.mk none none (some .Invalid) none none none none)
      (by decide) (by decide)⟩

/-! ## C5 : the new-tick reset -/

theorem fix_verdict_ok (s : Nmea) : ∃ ft, fix_verdict s = .ok ft s := by
  unfold fix_verdict
  split
  · exact ⟨.Invalid, rfl⟩
  · exact ⟨.Invalid, rfl⟩
  · split
    · exact ⟨_, rfl⟩
    · exact ⟨.Invalid, rfl⟩

/-- C5: an RMC (resp. GGA) sentence with a present, non-`Invalid` status
(resp. fix quality) whose time differs from the stored tick time triggers
the new-tick reset before its own merge: the scan table, flattened
satellite list and mandatory set survive, the observed-sentence set is
reduced to just this sentence, the stored tick time becomes the new time,
the sentence's own fields are merged, and every other fix-defining field
is cleared. -/
theorem C5_new_tick_reset :
    (∀ (s : Nmea) (rmc : RmcData) (st : RmcStatusOfFix) (t t' : NaiveTime),
      rmc.status_of_fix = some st → st ≠ .Invalid →
      rmc.fix_time = some t' → s.last_fix_time = some t → t ≠ t' →
      ∃ ft s', process_parse_result s (.RMC rmc) = .ok ft s' ∧
        s'.satellites_scan = s.satellites_scan ∧
        s'.satellites = s.satellites ∧
        s'.required_sentences_for_nav = s.required_sentences_for_nav ∧
        s'.last_fix_time = some t' ∧
        s'.sentences_for_this_time = [SentenceType.RMC] ∧
        s'.fix_time = rmc.fix_time ∧
        s'.fix_date = rmc.fix_date ∧
        s'.latitude = rmc.lat ∧
        s'.longitude = rmc.lon ∧
        s'.speed_over_ground = rmc.speed_over_ground ∧
        s'.true_course = rmc.true_course ∧
        s'.altitude = none ∧
        s'.num_of_fix_satellites = none ∧
        s'.hdop = none ∧
        s'.vdop = none ∧
        s'.pdop = none ∧
        s'.geoid_height = none ∧
        s'.fix_satellites_prns = none) ∧
    (∀ (s : Nmea) (gga : GgaData) (q : FixType) (t t' : NaiveTime),
      gga.fix_type = some q → q ≠ .Invalid →
      gga.fix_time = some t' → s.last_fix_time = some t → t ≠ t' →
      ∃ ft s', process_parse_result s (.GGA gga) = .ok ft s' ∧
        s'.satellites_scan = s.satellites_scan ∧
        s'.satellites = s.satellites ∧
        s'.required_sentences_for_nav = s.required_sentences_for_nav ∧
        s'.last_fix_time = some t' ∧
        s'.sentences_for_this_time = [SentenceType.GGA] ∧
        s'.fix_time = gga.fix_time ∧
        s'.fix_type = gga.fix_type ∧
        s'.latitude = gga.latitude ∧
        s'.longitude = gga.longitude ∧
        s'.num_of_fix_satellites = gga.fix_satellites ∧
        s'.hdop = gga.hdop ∧
        s'.altitude = gga.altitude ∧
        s'.geoid_height = gga.geoid_height ∧
        s'.fix_date = none ∧
        s'.speed_over_ground = none ∧
        s'.true_course = none ∧
        s'.vdop = none ∧
        s'.pdop = none ∧
        s'.fix_satellites_prns = none) := by
  constructor
  · intro s rmc st t t' hst hstne ht' hlast htt
    cases st with
    | Invalid => exact absurd rfl hstne
    | Autonomous =>
      have harm : process_parse_result s (.RMC rmc) =
          fix_verdict
            { merge_rmc_data { new_tick s with last_fix_time := some t' } rmc with
              sentences_for_this_time :=
                insert_sentence
                  (merge_rmc_data { new_tick s with last_fix_time := some t' } rmc).sentences_for_this_time
                  SentenceType.RMC } := by
        simp only [process_parse_result, hst, hlast, ht']
        rw [if_pos htt]
      obtain ⟨ft, hfv⟩ := fix_verdict_ok
        { merge_rmc_data { new_tick s with last_fix_time := some t' } rmc with
          sentences_for_this_time :=
            insert_sentence
              (merge_rmc_data { new_tick s with last_fix_time := some t' } rmc).sentences_for_this_time
              SentenceType.RMC }
      exact ⟨ft, _, harm.trans hfv, rfl, rfl, rfl, rfl, rfl, rfl, rfl, rfl, rfl, rfl,
        rfl, rfl, rfl, rfl, rfl, rfl, rfl, rfl⟩
    | Differential =>
      have harm : process_parse_result s (.RMC rmc) =
          fix_verdict
            { merge_rmc_data { new_tick s with last_fix_time := some t' } rmc with
              sentences_for_this_time :=
                insert_sentence
                  (merge_rmc_data { new_tick s with last_fix_time := some t' } rmc).sentences_for_this_time
                  SentenceType.RMC } := by
        simp only [process_parse_result, hst, hlast, ht']
        rw [if_pos htt]
      obtain ⟨ft, hfv⟩ := fix_verdict_ok
        { merge_rmc_data { new_tick s with last_fix_time := some t' } rmc with
          sentences_for_this_time :=
            insert_sentence
              (merge_rmc_data { new_tick s with last_fix_time := some t' } rmc).sentences_for_this_time
              SentenceType.RMC }
      exact ⟨ft, _, harm.trans hfv, rfl, rfl, rfl, rfl, rfl, rfl, rfl, rfl, rfl, rfl,
        rfl, rfl, rfl, rfl, rfl, rfl, rfl, rfl⟩
  · intro s gga q t t' hq hqne ht' hlast htt
    have harm : process_parse_result s (.GGA gga) =
        fix_verdict
          { merge_gga_data { new_tick s with last_fix_time := some t' } gga with
            sentences_for_this_time :=
              insert_sentence
                (merge_gga_data { new_tick s with last_fix_time := some t' } gga).sentences_for_this_time
                SentenceType.GGA } := by
      cases q with
      | Invalid => exact absurd rfl hqne
      | Gps =>
        simp only [process_parse_result, hq, hlast, ht']
        rw [if_pos htt]
      | DGps =>
        simp only [process_parse_result, hq, hlast, ht']
        rw [if_pos htt]
      | Pps =>
        simp only [process_parse_result, hq, hlast, ht']
        rw [if_pos htt]
      | Rtk =>
        simp only [process_parse_result, hq, hlast, ht']
        rw [if_pos htt]
      | FloatRtk =>
        simp only [process_parse_result, hq, hlast, ht']
        rw [if_pos htt]
      | Estimated =>
        simp only [process_parse_result, hq, hlast, ht']
        rw [if_pos htt]
      | Manual =>
        simp only [process_parse_result, hq, hlast, ht']
        rw [if_pos htt]
      | Simulation =>
        simp only [process_parse_result, hq, hlast, ht']
        rw [if_pos htt]
    obtain ⟨ft, hfv⟩ := fix_verdict_ok
      { merge_gga_data { new_tick s with last_fix_time := some t' } gga with
        sentences_for_this_time :=
          insert_sentence
            (merge_gga_data { new_tick s with last_fix_time := some t' } gga).sentences_for_this_time
            SentenceType.GGA }
    exact ⟨ft, _, harm.trans hfv, rfl, rfl, rfl, rfl, rfl, rfl, rfl, rfl, rfl, rfl,
      rfl, rfl, rfl, rfl, rfl, rfl, rfl, rfl, rfl⟩

/-- A concrete pre-state for the C5 witness: mid-tick at 12:33:01, with an
accumulated altitude and an observed GGA. -/
def c5_s0 : Nmea :=
  { Nmea.new with last_fix_time := some ⟨12, 33, 1⟩, altitude := some 5,
                  sentences_for_this_time := [SentenceType.GGA] }

/-- A concrete valid RMC record at the later time 12:33:02. -/
def c5_rmc0 : RmcData :=
  RmcData.mk (some ⟨12, 33, 2⟩) none (some .Autonomous) none none none none

/-- C5 witness: the reset theorem applied to the concrete mid-tick state
and the later-time RMC record. -/
theorem C5_new_tick_reset_witness :
    ∃ ft s', process_parse_result c5_s0 (.RMC c5_rmc0) = .ok ft s' ∧
      s'.satellites_scan = c5_s0.satellites_scan ∧
      s'.satellites = c5_s0.satellites ∧
      s'.required_sentences_for_nav = c5_s0.required_sentences_for_nav ∧
      s'.last_fix_time = some ⟨12, 33, 2⟩ ∧
      s'.sentences_for_this_time = [SentenceType.RMC] ∧
      s'.fix_time = c5_rmc0.fix_time ∧
      s'.fix_date = c5_rmc0.fix_date ∧
      s'.latitude = c5_rmc0.lat ∧
      s'.longitude = c5_rmc0.lon ∧
      s'.speed_over_ground = c5_rmc0.speed_over_ground ∧
      s'.true_course = c5_rmc0.true_course ∧
      s'.altitude = none ∧
      s'.num_of_fix_satellites = none ∧
      s'.hdop = none ∧
      s'.vdop = none ∧
      s'.pdop = none ∧
      s'.geoid_height = none ∧
      s'.fix_satellites_prns = none :=
  C5_new_tick_reset.1 c5_s0 c5_rmc0 .Autonomous ⟨12, 33, 1⟩ ⟨12, 33, 2⟩
    rfl (by decide) rfl rfl (by decide)

/-! ## C3 : tick gating -/

theorem fix_verdict_inv {x : Nmea} {ft : FixType} {s' : Nmea}
    (h : fix_verdict x = .ok ft s') :
    s' = x ∧ (ft ≠ .Invalid →
      is_subset x.required_sentences_for_nav x.sentences_for_this_time = true ∧
      x.fix_type = some ft) := by
  unfold fix_verdict at h
  split at h
  · obtain ⟨hft, hs⟩ : FixType.Invalid = ft ∧ x = s' := by simpa using h
    exact ⟨hs.symm, fun hne => absurd hft.symm hne⟩
  · obtain ⟨hft, hs⟩ : FixType.Invalid = ft ∧ x = s' := by simpa using h
    exact ⟨hs.symm, fun hne => absurd hft.symm hne⟩
  · split at h
    · rename_i ft0 hguard heq hsub
      obtain ⟨hft, hs⟩ : ft0 = ft ∧ x = s' := by simpa using h
      exact ⟨hs.symm, fun _ => ⟨hsub, by rw [heq, hft]⟩⟩
    · obtain ⟨hft, hs⟩ : FixType.Invalid = ft ∧ x = s' := by simpa using h
      exact ⟨hs.symm, fun hne => absurd hft.symm hne⟩

theorem process_ok_gating {s : Nmea} {r : ParseResult} {ft : FixType} {s' : Nmea}
    (h : process_parse_result s r = .ok ft s') (hne : ft ≠ .Invalid) :
    is_subset s'.required_sentences_for_nav s'.sentences_for_this_time = true ∧
    s'.fix_type = some ft := by
  match r with
  | .GSA gsa =>
    obtain ⟨hft, _⟩ : FixType.Invalid = ft ∧ merge_gsa_data s gsa = s' := by
      simpa [process_parse_result] using h
    exact absurd hft.symm hne
  | .GSV g =>
    simp only [process_parse_result] at h
    split at h
    · simp at h
    · simp at h
    · obtain ⟨hft, _⟩ : FixType.Invalid = ft ∧ _ = s' := by simpa using h
      exact absurd hft.symm hne
  | .VTG vtg =>
    simp only [process_parse_result] at h
    split at h
    · split at h
      · obtain ⟨hft, _⟩ : FixType.Invalid = ft ∧ _ = s' := by simpa using h
        exact absurd hft.symm hne
      · obtain ⟨hs, hgate⟩ := fix_verdict_inv h
        obtain ⟨hsub, hty⟩ := hgate hne
        subst hs
        exact ⟨hsub, hty⟩
    · obtain ⟨hft, _⟩ : FixType.Invalid = ft ∧ s = s' := by simpa using h
      exact absurd hft.symm hne
  | .RMC rmc =>
    simp only [process_parse_result] at h
    split at h
    · obtain ⟨hft, _⟩ : FixType.Invalid = ft ∧ _ = s' := by simpa using h
      exact absurd hft.symm hne
    · obtain ⟨hft, _⟩ : FixType.Invalid = ft ∧ _ = s' := by simpa using h
      exact absurd hft.symm hne
    · split at h
      · obtain ⟨hs, hgate⟩ := fix_verdict_inv h
        obtain ⟨hsub, hty⟩ := hgate hne
        subst hs
        exact ⟨hsub, hty⟩
      · obtain ⟨hs, hgate⟩ := fix_verdict_inv h
        obtain ⟨hsub, hty⟩ := hgate hne
        subst hs
        exact ⟨hsub, hty⟩
      · obtain ⟨hft, _⟩ : FixType.Invalid = ft ∧ _ = s' := by simpa using h
        exact absurd hft.symm hne
  | .GGA gga =>
    simp only [process_parse_result] at h
    split at h
    · obtain ⟨hft, _⟩ : FixType.Invalid = ft ∧ _ = s' := by simpa using h
      exact absurd hft.symm hne
    · obtain ⟨hft, _⟩ : FixType.Invalid = ft ∧ _ = s' := by simpa using h
      exact absurd hft.symm hne
    · split at h
      · obtain ⟨hs, hgate⟩ := fix_verdict_inv h
        obtain ⟨hsub, hty⟩ := hgate hne
        subst hs
        exact ⟨hsub, hty⟩
      · obtain ⟨hs, hgate⟩ := fix_verdict_inv h
        obtain ⟨hsub, hty⟩ := hgate hne
        subst hs
        exact ⟨hsub, hty⟩
      · obtain ⟨hft, _⟩ : FixType.Invalid = ft ∧ _ = s' := by simpa using h
        exact absurd hft.symm hne
  | .Unsupported m =>
    obtain ⟨hft, _⟩ : FixType.Invalid = ft ∧ s = s' := by
      simpa [process_parse_result] using h
    exact absurd hft.symm hne

theorem merge_gsv_preserves_fix {s : Nmea} {g : GsvData} {s'' : Nmea}
    (h : merge_gsv_data s g = .ok s'') :
    s''.fix_time = s.fix_time ∧ s''.latitude = s.latitude ∧
    s''.longitude = s.longitude ∧ s''.altitude = s.altitude ∧
    s''.fix_type = s.fix_type := by
  cases hl : lookup_scan s.satellites_scan g.gnss_type with
  | none => simp [merge_gsv_data, hl] at h
  | some v =>
    simp only [merge_gsv_data, hl] at h
    split at h
    · simp at h
    · split at h
      · have hs := by simpa using h
        rw [← hs]
        exact ⟨rfl, rfl, rfl, rfl, rfl⟩
      · simp at h

/-- C3: (gating) whenever `parse_for_fix` reports a fix type other than
`Invalid`, the mandatory set is contained in the set of sentence types seen
this tick and the reported type is the merged state's fix type; (GSA) a GSA
sentence merges and always reports no-fix without touching time, position,
altitude or fix type; (GSV arm) the GSV arm of `parse_for_fix`, when its
merge succeeds, likewise reports no-fix and leaves the fix fields alone —
but (divergence, last conjunct) through `parse` a checksummed GSV sentence
never reaches that arm: the whole state comes back untouched even though
`merge_gsv_data` applied to the decoded record would have recorded its
satellites. -/
theorem C3_tick_gating :
    (∀ (s : Nmea) (xs : List Nat) (ft : FixType) (s' : Nmea),
      parse_for_fix s xs = .ok ft s' → ft ≠ .Invalid →
      is_subset s'.required_sentences_for_nav s'.sentences_for_this_time = true ∧
      s'.fix_type = some ft) ∧
    (∀ (s : Nmea) (g : GsaData),
      process_parse_result s (.GSA g) = .ok .Invalid (merge_gsa_data s g) ∧
      (merge_gsa_data s g).fix_time = s.fix_time ∧
      (merge_gsa_data s g).latitude = s.latitude ∧
      (merge_gsa_data s g).longitude = s.longitude ∧
      (merge_gsa_data s g).altitude = s.altitude ∧
      (merge_gsa_data s g).fix_type = s.fix_type) ∧
    (∀ (s : Nmea) (g : GsvData) (s'' : Nmea),
      merge_gsv_data s g = .ok s'' →
      process_parse_result s (.GSV g) = .ok .Invalid s'' ∧
      s''.fix_time = s.fix_time ∧ s''.latitude = s.latitude ∧
      s''.longitude = s.longitude ∧ s''.altitude = s.altitude ∧
      s''.fix_type = s.fix_type) ∧
    (parse_for_fix Nmea.new (bytesOf "$GLGSV,3,3,10,72,40,075,43,87,00,000,*6F") =
        .ok .Invalid Nmea.new ∧
      ∃ m, merge_gsv_data Nmea.new
          { gnss_type := .Glonass, number_of_sentences := 3, sentence_num := 3,
            sats_in_view := 10,
            sats_info :=
              [some { gnss_type := .Glonass, prn := 72, elevation := some 40,
                      azimuth := some 75, snr := some 43 },
               some { gnss_type := .Glonass, prn := 87, elevation := some 0,
                      azimuth := some 0, snr := none },
               none, none] } = .ok m ∧ m.satellites ≠ []) := by
  refine ⟨?_, ?_, ?_, ?_⟩
  · intro s xs ft s' h hne
    unfold parse_for_fix at h
    match hp : parse xs with
    | .error e => rw [hp] at h; simp at h
    | .ok r =>
      rw [hp] at h
      exact process_ok_gating h hne
  · intro s g
    exact ⟨rfl, rfl, rfl, rfl, rfl, rfl⟩
  · intro s g s'' h
    refine ⟨?_, merge_gsv_preserves_fix h⟩
    simp only [process_parse_result, h]
  · refine ⟨by decide, ?_⟩
    refine ⟨_, rfl, by decide⟩

/-- The state `parse_for_fix` reaches from `Nmea::new` after one valid GGA
sentence at 00:00:00 (for the C3 witness). -/
def c3_s1 : Nmea :=
  { Nmea.new with fix_time := some ⟨0, 0, 0⟩, fix_type := some .Gps,
                  last_fix_time := some ⟨0, 0, 0⟩,
                  sentences_for_this_time := [SentenceType.GGA] }

/-- A decoded two-satellite GLGSV slot-3 record (for the C3 witness). -/
def c3_gsv : GsvData :=
  { gnss_type := .Glonass, number_of_sentences := 3, sentence_num := 3,
    sats_in_view := 10,
    sats_info :=
      [some { gnss_type := .Glonass, prn := 72, elevation := some 40,
              azimuth := some 75, snr := some 43 },
       some { gnss_type := .Glonass, prn := 87, elevation := some 0,
              azimuth := some 0, snr := none },
       none, none] }

/-- The state `merge_gsv_data` produces from `Nmea::new` and `c3_gsv`
(for the C3 witness). -/
def c3_m : Nmea :=
  { Nmea.new with
    satellites :=
      [{ gnss_type := .Glonass, prn := 72, elevation := some 40,
         azimuth := some 75, snr := some 43 },
       { gnss_type := .Glonass, prn := 87, elevation := some 0,
         azimuth := some 0, snr := none }],
    satellites_scan :=
      [(.Galileo, []), (.Gps, []),
       (.Glonass,
        [[], [],
         [{ gnss_type := .Glonass, prn := 72, elevation := some 40,
            azimuth := some 75, snr := some 43 },
          { gnss_type := .Glonass, prn := 87, elevation := some 0,
            azimuth := some 0, snr := none }]])] }

/-- C3 witness: the gating part applied to a concrete run that reports a
GPS fix, and the GSV-arm part applied to a concrete successful merge. -/
theorem C3_tick_gating_witness :
    (is_subset c3_s1.required_sentences_for_nav c3_s1.sentences_for_this_time = true ∧
      c3_s1.fix_type = some .Gps) ∧
    (process_parse_result Nmea.new (.GSV c3_gsv) = .ok .Invalid c3_m ∧
      c3_m.fix_time = Nmea.new.fix_time ∧ c3_m.latitude = Nmea.new.latitude ∧
      c3_m.longitude = Nmea.new.longitude ∧ c3_m.altitude = Nmea.new.altitude ∧
      c3_m.fix_type = Nmea.new.fix_type) :=
  ⟨C3_tick_gating.1 Nmea.new (bytesOf "$GPGGA,000000,,,,,1,,,,,,,,*67") .Gps c3_s1
      (by decide) (by decide),
   C3_tick_gating.2.2.1 Nmea.new c3_gsv c3_m (by decide)⟩

/-! ## The GSV merge step in closed form (shared by C6 and C8) -/

theorem swap_remove_push {α : Type} (l : List α) (x : α) (i : Nat) (dflt : α)
    (h : i < l.length) : swap_remove (l ++ [x]) i dflt = l.set i x := by
  unfold swap_remove
  rw [List.getLastD_concat]
  have hset : (l ++ [x]).set i x = l.set i x ++ [x] := by
    rw [List.set_append]
    rw [if_pos h]
  rw [hset]
  have hlen : (l ++ [x]).length - 1 = (l.set i x).length := by simp
  rw [hlen]
  exact List.take_left _ _

theorem vec_resize_self {α : Type} {v : List α} {n : Nat} (pad : α)
    (h : v.length = n) : vec_resize v n pad = v := by
  subst h
  simp [vec_resize]

theorem lookup_scan_update_self (m : List (GnssType × List (List Satellite)))
    (k : GnssType) (v v0 : List (List Satellite))
    (h : lookup_scan m k = some v0) :
    lookup_scan (update_scan m k v) k = some v := by
  induction m with
  | nil => simp [lookup_scan] at h
  | cons p rest ih =>
    obtain ⟨k', v'⟩ := p
    by_cases hk : k' = k
    · simp [lookup_scan, update_scan, hk]
    · simp only [lookup_scan, update_scan, if_neg hk] at h ⊢
      exact ih h

theorem update_scan_update_scan (m : List (GnssType × List (List Satellite)))
    (k : GnssType) (v1 v2 : List (List Satellite)) :
    update_scan (update_scan m k v1) k v2 = update_scan m k v2 := by
  induction m with
  | nil => rfl
  | cons p rest ih =>
    obtain ⟨k', v'⟩ := p
    by_cases hk : k' = k
    · simp [update_scan, hk]
    · simp only [update_scan, if_neg hk]
      rw [ih]

/-- The closed form of a successful `merge_gsv_data`: resize the
constellation's slots to this scan's count and overwrite slot
`sentence_num` (1-based) with this sentence's non-absent satellites. -/
theorem merge_gsv_data_eval {s : Nmea} {d : GsvData} {v : List (List Satellite)}
    (hl : lookup_scan s.satellites_scan d.gnss_type = some v)
    (h1 : 1 ≤ d.sentence_num) (h2 : d.sentence_num ≤ d.number_of_sentences) :
    merge_gsv_data s d = .ok
      { s with
        satellites_scan := update_scan s.satellites_scan d.gnss_type
          ((vec_resize v d.number_of_sentences []).set (d.sentence_num - 1)
            (d.sats_info.filterMap id)),
        satellites := flatten_scan (update_scan s.satellites_scan d.gnss_type
          ((vec_resize v d.number_of_sentences []).set (d.sentence_num - 1)
            (d.sats_info.filterMap id))) } := by
  have hk : d.sentence_num - 1 <
      (vec_resize v d.number_of_sentences ([] : List Satellite)).length := by
    rw [vec_resize_length]
    omega
  simp only [merge_gsv_data, hl]
  rw [if_neg (by omega : ¬ d.sentence_num = 0)]
  rw [if_pos (by simp [vec_resize_length]; omega :
    d.sentence_num - 1 <
      (vec_resize v d.number_of_sentences ([] : List Satellite) ++
        [d.sats_info.filterMap id]).length)]
  rw [swap_remove_push _ _ _ _ hk]

/-! ## C6 : the shape of a GSV merge -/

/-- Three distinguishable satellites for the C6 counterexample. -/
def c6_satA : Satellite := { gnss_type := .Gps, prn := 1, elevation := none, azimuth := none, snr := none }

/-- See `c6_satA`. -/
def c6_satB : Satellite := { gnss_type := .Gps, prn := 2, elevation := none, azimuth := none, snr := none }

/-- See `c6_satA`. -/
def c6_satC : Satellite := { gnss_type := .Gps, prn := 3, elevation := none, azimuth := none, snr := none }

/-- A session state whose GPS scan already has two slots (for the C6
counterexample). -/
def c6_s : Nmea :=
  { Nmea.new with
    satellites_scan := [(.Galileo, []), (.Gps, [[c6_satA], [c6_satB]]), (.Glonass, [])],
    satellites := [c6_satA, c6_satB] }

/-- C6 counterexample: merging a one-sentence scan (`number_of_sentences =
1`, slot 1) into a state whose GPS sequence has two filled slots does not
preserve the other slot — `Vec::resize` truncates the sequence to one slot
first, so slot 2's satellite disappears from the rebuilt flattened list,
contradicting "the contents of every other slot being preserved". -/
theorem C6_counterexample_truncation :
    merge_gsv_data c6_s
      { gnss_type := .Gps, number_of_sentences := 1, sentence_num := 1,
        sats_in_view := 1, sats_info := [some c6_satC, none, none, none] } =
      .ok { Nmea.new with
            satellites_scan := [(.Galileo, []), (.Gps, [[c6_satC]]), (.Glonass, [])],
            satellites := [c6_satC] } ∧
    c6_satB ∈ c6_s.satellites ∧
    c6_satB ∉
      ({ Nmea.new with
         satellites_scan := [(.Galileo, []), (.Gps, [[c6_satC]]), (.Glonass, [])],
         satellites := [c6_satC] } : Nmea).satellites := by
  refine ⟨by decide, by decide, by decide⟩

/-- C6 (amended): a successful GSV merge resizes the constellation's slot
sequence to exactly `number_of_sentences` slots (slots beyond that are
dropped — this is the one correction to the claim), writes the sentence's
non-absent satellites into its 1-based slot, preserves every other slot
among the first `number_of_sentences` (padding freshly grown slots with
the empty group), and rebuilds the flattened satellite list from the
updated table. -/
theorem C6_merge_gsv_slots (s : Nmea) (d : GsvData) (v : List (List Satellite))
    (hl : lookup_scan s.satellites_scan d.gnss_type = some v)
    (h1 : 1 ≤ d.sentence_num) (h2 : d.sentence_num ≤ d.number_of_sentences) :
    ∃ s' v', merge_gsv_data s d = .ok s' ∧
      s'.satellites_scan = update_scan s.satellites_scan d.gnss_type v' ∧
      v'.length = d.number_of_sentences ∧
      v'[d.sentence_num - 1]? = some (d.sats_info.filterMap id) ∧
      (∀ j, j < d.number_of_sentences → j ≠ d.sentence_num - 1 →
        (j < v.length → v'[j]? = v[j]?) ∧ (v.length ≤ j → v'[j]? = some [])) ∧
      s'.satellites = flatten_scan s'.satellites_scan := by
  refine ⟨_, (vec_resize v d.number_of_sentences []).set (d.sentence_num - 1)
    (d.sats_info.filterMap id), merge_gsv_data_eval hl h1 h2, rfl, ?_, ?_, ?_, rfl⟩
  · rw [List.length_set, vec_resize_length]
  · rw [List.getElem?_set_self]
    rw [vec_resize_length]
    omega
  · intro j hj hne
    rw [List.getElem?_set_ne (by omega : d.sentence_num - 1 ≠ j)]
    constructor
    · intro hjv
      unfold vec_resize
      rw [List.getElem?_append_left (by simp; omega)]
      rw [List.getElem?_take_of_lt hj]
    · intro hvj
      unfold vec_resize
      rw [List.getElem?_append_right (by simp; omega)]
      have hlen : (v.take d.number_of_sentences).length = v.length := by simp; omega
      rw [hlen]
      rw [List.getElem?_replicate]
      rw [if_pos (by omega)]

/-- C6 witness: the amended slot theorem applied to the concrete two-slot
GPS state and a slot-1 sentence of a two-sentence scan (no truncation
here, so both preservation clauses are exercised). -/
theorem C6_merge_gsv_slots_witness :
    ∃ s' v', merge_gsv_data c6_s
        { gnss_type := .Gps, number_of_sentences := 3, sentence_num := 1,
          sats_in_view := 1, sats_info := [some c6_satC, none, none, none] } = .ok s' ∧
      s'.satellites_scan = update_scan c6_s.satellites_scan .Gps v' ∧
      v'.length = 3 ∧
      v'[0]? = some [c6_satC] ∧
      (∀ j, j < 3 → j ≠ 0 →
        (j < 2 → v'[j]? = [[c6_satA], [c6_satB]][j]?) ∧ (2 ≤ j → v'[j]? = some [])) ∧
      s'.satellites = flatten_scan s'.satellites_scan :=
  C6_merge_gsv_slots c6_s
    { gnss_type := .Gps, number_of_sentences := 3, sentence_num := 1,
      sats_in_view := 1, sats_info := [some c6_satC, none, none, none] }
    [[c6_satA], [c6_satB]] (by decide) (by decide) (by decide)

/-! ## C8 : order-independence of GSV scan merging -/

/-- The state transformer of one GSV merge, total for folding: a failed or
aborted merge leaves the state unchanged (under the hypotheses of the
theorems below the merge always succeeds, so the fallback is never
taken). -/
def merge_gsv_step (s : Nmea) (d : GsvData) : Nmea :=
  match merge_gsv_data s d with
  | .ok s' => s'
  | _ => s

theorem merge_gsv_step_eval {s : Nmea} {d : GsvData} {v : List (List Satellite)}
    (hl : lookup_scan s.satellites_scan d.gnss_type = some v)
    (h1 : 1 ≤ d.sentence_num) (h2 : d.sentence_num ≤ d.number_of_sentences) :
    merge_gsv_step s d =
      { s with
        satellites_scan := update_scan s.satellites_scan d.gnss_type
          ((vec_resize v d.number_of_sentences []).set (d.sentence_num - 1)
            (d.sats_info.filterMap id)),
        satellites := flatten_scan (update_scan s.satellites_scan d.gnss_type
          ((vec_resize v d.number_of_sentences []).set (d.sentence_num - 1)
            (d.sats_info.filterMap id))) } := by
  unfold merge_gsv_step
  rw [merge_gsv_data_eval hl h1 h2]

theorem merge_gsv_step_no_key {s : Nmea} {d : GsvData}
    (hl : lookup_scan s.satellites_scan d.gnss_type = none) :
    merge_gsv_step s d = s := by
  unfold merge_gsv_step
  simp [merge_gsv_data, hl]

/-- Two scan sentences of the same constellation and scan size, aimed at
distinct slots within range, merge in either order to the same state. -/
theorem merge_gsv_step_comm {gt : GnssType} {n : Nat} {x y : GsvData}
    (hxg : x.gnss_type = gt) (hxn : x.number_of_sentences = n)
    (hx1 : 1 ≤ x.sentence_num) (hx2 : x.sentence_num ≤ n)
    (hyg : y.gnss_type = gt) (hyn : y.number_of_sentences = n)
    (hy1 : 1 ≤ y.sentence_num) (hy2 : y.sentence_num ≤ n)
    (hnum : x.sentence_num ≠ y.sentence_num) (b : Nmea) :
    merge_gsv_step (merge_gsv_step b x) y = merge_gsv_step (merge_gsv_step b y) x := by
  obtain ⟨xg, xn, xk, xs, xsi⟩ := x
  obtain ⟨yg, yn, yk, ys, ysi⟩ := y
  simp only at hxg hxn hx1 hx2 hyg hyn hy1 hy2 hnum
  subst hxg
  subst hxn
  subst hyg
  subst hyn
  cases hb : lookup_scan b.satellites_scan yg with
  | none =>
    have ex : merge_gsv_step b ⟨yg, yn, xk, xs, xsi⟩ = b := merge_gsv_step_no_key hb
    have ey : merge_gsv_step b ⟨yg, yn, yk, ys, ysi⟩ = b := merge_gsv_step_no_key hb
    simp only [ex, ey]
  | some v =>
    have ex := merge_gsv_step_eval (d := ⟨yg, yn, xk, xs, xsi⟩) (v := v) hb hx1 hx2
    have ey := merge_gsv_step_eval (d := ⟨yg, yn, yk, ys, ysi⟩) (v := v) hb hy1 hy2
    dsimp only at ex ey
    have hvx : ((vec_resize v yn ([] : List Satellite)).set (xk - 1)
        (xsi.filterMap id)).length = yn := by
      rw [List.length_set, vec_resize_length]
    have hvy : ((vec_resize v yn ([] : List Satellite)).set (yk - 1)
        (ysi.filterMap id)).length = yn := by
      rw [List.length_set, vec_resize_length]
    have ex2 := merge_gsv_step_eval (d := ⟨yg, yn, xk, xs, xsi⟩)
      (v := (vec_resize v yn []).set (yk - 1) (ysi.filterMap id))
      (s := { b with
        satellites_scan := update_scan b.satellites_scan yg
          ((vec_resize v yn []).set (yk - 1) (ysi.filterMap id)),
        satellites := flatten_scan (update_scan b.satellites_scan yg
          ((vec_resize v yn []).set (yk - 1) (ysi.filterMap id))) })
      (lookup_scan_update_self _ _ _ _ hb) hx1 hx2
    have ey2 := merge_gsv_step_eval (d := ⟨yg, yn, yk, ys, ysi⟩)
      (v := (vec_resize v yn []).set (xk - 1) (xsi.filterMap id))
      (s := { b with
        satellites_scan := update_scan b.satellites_scan yg
          ((vec_resize v yn []).set (xk - 1) (xsi.filterMap id)),
        satellites := flatten_scan (update_scan b.satellites_scan yg
          ((vec_resize v yn []).set (xk - 1) (xsi.filterMap id))) })
      (lookup_scan_update_self _ _ _ _ hb) hy1 hy2
    dsimp only at ex2 ey2
    rw [ex, ey, ey2, ex2]
    rw [update_scan_update_scan, update_scan_update_scan]
    rw [vec_resize_self ([] : List Satellite) hvx, vec_resize_self ([] : List Satellite) hvy]
    rw [List.set_comm _ _ _ (by omega : xk - 1 ≠ yk - 1)]

/-- Modelled from the spec: the satellites "of the slots received so far" —
slot `k` holds the non-absent satellites of whichever received sentence
carries slot number `k`, and nothing otherwise. -/
def slot_sats (scan : List GsvData) (k : Nat) : List Satellite :=
  match scan.find? (fun d => d.sentence_num = k) with
  | some d => d.sats_info.filterMap id
  | none => []

/-- The slot vector the merges accumulate, in closed form. -/
def build_vec (n : Nat) (scan : List GsvData) : List (List Satellite) :=
  scan.foldl
    (fun v d => (vec_resize v n []).set (d.sentence_num - 1) (d.sats_info.filterMap id)) []

theorem build_vec_append (n : Nat) (l : List GsvData) (d : GsvData) :
    build_vec n (l ++ [d]) =
      (vec_resize (build_vec n l) n []).set (d.sentence_num - 1)
        (d.sats_info.filterMap id) := by
  simp [build_vec]

theorem build_vec_length_ne_nil (n : Nat) (l : List GsvData) (h : l ≠ []) :
    (build_vec n l).length = n := by
  obtain rfl | ⟨L, b, rfl⟩ := l.eq_nil_or_concat
  · exact absurd rfl h
  · rw [List.concat_eq_append, build_vec_append, List.length_set, vec_resize_length]

theorem slot_sats_append_ne {l : List GsvData} {d : GsvData} {k : Nat}
    (h : d.sentence_num ≠ k) : slot_sats (l ++ [d]) k = slot_sats l k := by
  unfold slot_sats
  rw [List.find?_append]
  have hnd : List.find? (fun d' => decide (d'.sentence_num = k)) [d] = none := by
    simp [List.find?_cons, h]
  rw [hnd, Option.or_none]

theorem slot_sats_append_self {l : List GsvData} {d : GsvData}
    (hnone : l.find? (fun d' => decide (d'.sentence_num = d.sentence_num)) = none) :
    slot_sats (l ++ [d]) d.sentence_num = d.sats_info.filterMap id := by
  unfold slot_sats
  rw [List.find?_append, hnone]
  simp [List.find?_cons]

theorem build_vec_getElem (n j : Nat) (hj : j < n) :
    ∀ (l : List GsvData),
      (∀ d ∈ l, 1 ≤ d.sentence_num ∧ d.sentence_num ≤ n) →
      l.Pairwise (fun a b => a.sentence_num ≠ b.sentence_num) →
      l ≠ [] →
      (build_vec n l)[j]? = some (slot_sats l (j + 1)) := by
  intro l
  induction l using List.reverseRecOn with
  | nil =>
    intro _ _ hne
    exact absurd rfl hne
  | append_singleton l d ih =>
    intro hall hpw hne
    have hd := hall d (by simp)
    obtain ⟨hpwl, _, hcross⟩ := List.pairwise_append.mp hpw
    rw [build_vec_append]
    by_cases hjd : j = d.sentence_num - 1
    · subst hjd
      rw [List.getElem?_set_self (by rw [vec_resize_length]; omega)]
      have hidx : d.sentence_num - 1 + 1 = d.sentence_num := by omega
      rw [hidx]
      have hnone : l.find? (fun d' => decide (d'.sentence_num = d.sentence_num)) = none := by
        rw [List.find?_eq_none]
        intro x hx
        simp only [decide_eq_true_eq]
        exact hcross x hx d (by simp)
      rw [slot_sats_append_self hnone]
    · rw [List.getElem?_set_ne (by omega)]
      rw [slot_sats_append_ne (by omega : d.sentence_num ≠ j + 1)]
      by_cases hlnil : l = []
      · subst hlnil
        have hrep : vec_resize (build_vec n []) n ([] : List Satellite) =
            List.replicate n [] := by
          simp [build_vec, vec_resize]
        rw [hrep, List.getElem?_replicate_of_lt hj]
        rfl
      · rw [vec_resize_self ([] : List Satellite) (build_vec_length_ne_nil n l hlnil)]
        exact ih (fun d' hd' => hall d' (List.mem_append_left _ hd')) hpwl hlnil

theorem lookup_scan_new (gt : GnssType) :
    lookup_scan Nmea.new.satellites_scan gt = some [] := by
  cases gt <;> rfl

theorem foldl_merge_state (gt : GnssType) (n : Nat) :
    ∀ (scan : List GsvData),
      (∀ d ∈ scan, d.gnss_type = gt ∧ d.number_of_sentences = n ∧
        1 ≤ d.sentence_num ∧ d.sentence_num ≤ n) →
      List.foldl merge_gsv_step Nmea.new scan =
        { Nmea.new with
          satellites_scan := update_scan Nmea.new.satellites_scan gt (build_vec n scan),
          satellites :=
            flatten_scan (update_scan Nmea.new.satellites_scan gt (build_vec n scan)) } := by
  intro scan
  induction scan using List.reverseRecOn with
  | nil =>
    intro _
    cases gt <;> rfl
  | append_singleton l d ih =>
    intro hall
    have hd := hall d (by simp)
    rw [List.foldl_append]
    rw [ih (fun d' hd' => hall d' (List.mem_append_left _ hd'))]
    simp only [List.foldl_cons, List.foldl_nil]
    have hlk : lookup_scan
        (update_scan Nmea.new.satellites_scan gt (build_vec n l)) d.gnss_type =
        some (build_vec n l) := by
      rw [hd.1]
      exact lookup_scan_update_self _ _ _ _ (lookup_scan_new gt)
    rw [merge_gsv_step_eval hlk hd.2.2.1 (by omega)]
    rw [hd.1, hd.2.1]
    rw [update_scan_update_scan]
    rw [← build_vec_append]

/-- C8: merging the sentences of one fixed scan (same constellation, same
`number_of_sentences`, pairwise-distinct 1-based slot numbers in range) in
any permutation of arrival order produces the same session state; and from
a fresh session, merging any sublist of a scan leaves as flattened
satellite list exactly the concatenation, slot by slot, of the satellites
of the slots received so far. -/
theorem C8_gsv_scan_order_independent :
    (∀ (gt : GnssType) (n : Nat) (scan1 scan2 : List GsvData) (s : Nmea),
      scan1.Perm scan2 →
      (∀ d ∈ scan1, d.gnss_type = gt ∧ d.number_of_sentences = n ∧
        1 ≤ d.sentence_num ∧ d.sentence_num ≤ n) →
      scan1.Pairwise (fun a b => a.sentence_num ≠ b.sentence_num) →
      List.foldl merge_gsv_step s scan1 = List.foldl merge_gsv_step s scan2) ∧
    (∀ (gt : GnssType) (n : Nat) (scan : List GsvData),
      (∀ d ∈ scan, d.gnss_type = gt ∧ d.number_of_sentences = n ∧
        1 ≤ d.sentence_num ∧ d.sentence_num ≤ n) →
      scan.Pairwise (fun a b => a.sentence_num ≠ b.sentence_num) →
      (List.foldl merge_gsv_step Nmea.new scan).satellites =
        (List.range n).flatMap (fun i => slot_sats scan (i + 1))) := by
  constructor
  · intro gt n scan1 scan2 s hperm hall hpw
    refine hperm.foldl_eq' ?_ s
    intro x hx y hy z
    by_cases hxy : x = y
    · subst hxy
      rfl
    · have hnum : x.sentence_num ≠ y.sentence_num :=
        hpw.forall (fun a b h => h.symm) hx hy hxy
      obtain ⟨hxg, hxn, hx1, hx2⟩ := hall x hx
      obtain ⟨hyg, hyn, hy1, hy2⟩ := hall y hy
      exact merge_gsv_step_comm hxg hxn hx1 hx2 hyg hyn hy1 hy2 hnum z
  · intro gt n scan hall hpw
    by_cases hne : scan = []
    · subst hne
      simp only [List.foldl_nil]
      have hz : ∀ i : Nat, slot_sats ([] : List GsvData) (i + 1) = [] := fun i => rfl
      rw [List.flatMap_def]
      have hflat : (List.map (fun i => slot_sats ([] : List GsvData) (i + 1))
          (List.range n)).flatten = ([] : List Satellite) := by
        rw [List.flatten_eq_nil_iff]
        intro x hx
        obtain ⟨i, _, rfl⟩ := List.mem_map.mp hx
        exact hz i
      rw [hflat]
      rfl
    · rw [foldl_merge_state gt n scan hall]
      have hfs : flatten_scan (update_scan Nmea.new.satellites_scan gt (build_vec n scan)) =
          (build_vec n scan).flatten := by
        cases gt <;> simp [flatten_scan, update_scan, Nmea.new, Nmea.default]
      have hbv : build_vec n scan = (List.range n).map (fun i => slot_sats scan (i + 1)) := by
        apply List.ext_getElem?
        intro j
        by_cases hj : j < n
        · rw [build_vec_getElem n j hj scan
            (fun d hd => ⟨(hall d hd).2.2.1, (hall d hd).2.2.2⟩) hpw hne]
          rw [List.getElem?_map, List.getElem?_range hj]
          rfl
        · rw [List.getElem?_eq_none (by rw [build_vec_length_ne_nil n scan hne]; omega)]
          rw [List.getElem?_eq_none (by simp; omega)]
      show flatten_scan (update_scan Nmea.new.satellites_scan gt (build_vec n scan)) = _
      rw [hfs, hbv, ← List.flatMap_def]

/-- Slot-1 sentence of a two-sentence GPS scan (C8 witness). -/
def c8_d1 : GsvData :=
  { gnss_type := .Gps, number_of_sentences := 2, sentence_num := 1,
    sats_in_view := 2, sats_info := [some c6_satA, none, none, none] }

/-- Slot-2 sentence of the same scan (C8 witness). -/
def c8_d2 : GsvData :=
  { gnss_type := .Gps, number_of_sentences := 2, sentence_num := 2,
    sats_in_view := 2, sats_info := [some c6_satB, none, none, none] }

/-- C8 witness: the two arrival orders of the concrete two-sentence scan
agree, and a partial scan consisting of slot 2 alone yields exactly slot
2's satellites. -/
theorem C8_gsv_scan_order_independent_witness :
    List.foldl merge_gsv_step Nmea.new [c8_d1, c8_d2] =
      List.foldl merge_gsv_step Nmea.new [c8_d2, c8_d1] ∧
    (List.foldl merge_gsv_step Nmea.new [c8_d2]).satellites =
      (List.range 2).flatMap (fun i => slot_sats [c8_d2] (i + 1)) :=
  ⟨C8_gsv_scan_order_independent.1 .Gps 2 [c8_d1, c8_d2] [c8_d2, c8_d1] Nmea.new
      (List.Perm.swap c8_d2 c8_d1 []) (by decide) (by decide),
   C8_gsv_scan_order_independent.2 .Gps 2 [c8_d2] (by decide) (by decide)⟩

end NmeaSrc
